import Mathlib

/-!
# go-sentry: organizations, external users and uptime monitors

A shallow embedding of `sentry/external_users.go`, `sentry/uptime.go` and
`sentry/organizations.go`.

* Go pointers (`*string`, `*int`, `*bool`, `*Owner`, ...) are `Option`s, `nil` being `none`.
* Go slices are `Slice α = Option (List α)`: `none` is the nil slice, `some []` the empty
  non-nil slice.
* `interface{}` values are `Option Json`: `none` is the nil interface, `some j` a value that
  serialises to (or was decoded from) the document `j`.
* `fmt.Sprintf` with `%s` or `%v` verbs and string arguments is string concatenation.
* The struct tags drive `encoding/json` by reflection; here each struct comes with the table
  of its fields (`OutField` for the write shapes, `Field` for the read shapes), and
  `marshalStruct`, `decodeStruct` interpret the tables the way `encoding/json` does.
* A resource method runs in `Traced`, which threads the list of calls made on the transport
  (`NewRequest`, `Do`), so that which calls were made, with which arguments, is part of what
  a method returns.
* The transport (`Client.NewRequest`, `Client.Do`), `addQuery`, `time.Time` and the two role
  list item types are declared outside the three files; they are parameters (`Client`,
  `External`).
-/

set_option autoImplicit false

namespace Sentry

/-! ## JSON documents -/

/-- JSON documents as trees. `num` is an integer number literal, `frac` any other number
literal (kept as its text); the members of an object are kept in document order. -/
inductive Json where
  | null
  | bool (b : Bool)
  | num (n : Int)
  | frac (lit : String)
  | str (s : String)
  | arr (xs : List Json)
  | obj (kvs : List (String × Json))

/-- The members of an object, in document order (none for other documents). -/
def Json.members : Json → List (String × Json)
  | .obj kvs => kvs
  | _ => []

/-- The member names of an object, in document order. -/
def Json.keys (j : Json) : List String := j.members.map Prod.fst

/-! ## Transport -/

/-- Modelled from the spec: the error taxonomy of section 7 (request construction, transport,
service error carrying the status code, decode error). The Go `error` values themselves are
produced by the transport, which is declared outside the three resource files. -/
inductive Error where
  | construction (msg : String)
  | transport (msg : String)
  | service (statusCode : Nat) (msg : String)
  | decode (msg : String)
deriving DecidableEq

/-- The standard library `context.Context`, reduced to what a caller can observe of it. -/
structure Context where
  cancelled : Bool
deriving DecidableEq

/-- The standard library `*http.Request` as built by `NewRequest`. -/
structure Request where
  method : String
  url : String
  body : Option Json

/-- Modelled from the spec: the response envelope of section 4.3 (status code and pagination
cursor); the type `Response` is declared with the transport. -/
structure Response where
  statusCode : Nat
  cursor : Option String
deriving DecidableEq

/-- Modelled from the spec: the pagination parameter object of section 4.2, holding an
optional cursor string; the type `ListCursorParams` is declared with the transport. -/
structure ListCursorParams where
  Cursor : Option String
deriving DecidableEq

/-- A Go slice `[]α`: nil, or a list of elements. -/
abbrev Slice (α : Type) : Type := Option (List α)

/-- What `json.Unmarshal` does with a document and a target of type `T`: the updated target,
or an error. -/
abbrev Decoder (T : Type) := Json → T → Except Error T

/-- The transport adapter `*Client`, declared outside the three resource files: its two
methods are parameters. `newRequest method path body` is `NewRequest`, the body being the
document the Go value serialises to (`none` for a nil body). `doInto` is `Do` with a non-nil
decode target `v` (of type `T`, decoded by `dec`): it returns the response, the error and the
target as the call left it. `doNil` is `Do` with a nil decode target. -/
structure Client where
  newRequest : String → String → Option Json → Except Error Request
  doInto : (T : Type) → Decoder T → Context → Request → T → Option Response × Option Error × T
  doNil : Context → Request → Option Response × Option Error

/-- The Go struct `service`, which every resource service is a copy of. -/
structure service where
  client : Client

/-- A call made on the transport. -/
inductive Call where
  | NewRequest (method : String) (path : String) (body : Option Json)
  | Do (ctx : Context) (req : Request) (nilTarget : Bool)

/-- Whether a call is a `NewRequest`. -/
def Call.isNewRequest : Call → Bool
  | .NewRequest _ _ _ => true
  | .Do _ _ _ => false

/-- Whether a call is a `Do`. -/
def Call.isDo : Call → Bool
  | .NewRequest _ _ _ => false
  | .Do _ _ _ => true

/-- Computations that record the transport calls they make: given the calls made so far, a
result and the calls made so far afterwards. -/
def Traced (α : Type) : Type := List Call → α × List Call

instance : Monad Traced where
  pure a := fun log => (a, log)
  bind m f := fun log => f (m log).1 (m log).2

/-- Recording one call. -/
def Traced.record (c : Call) : Traced Unit := fun log => ((), log ++ [c])

/-- The result of a method called with no transport call made before it. -/
def Traced.result {α : Type} (m : Traced α) : α := (m []).1

/-- The transport calls a method makes, in order. -/
def Traced.calls {α : Type} (m : Traced α) : List Call := (m []).2

/-- `c.NewRequest(method, path, body)`: records the call and builds the request. -/
def Client.NewRequest (c : Client) (method path : String) (body : Option Json) :
    Traced (Except Error Request) := do
  Traced.record (Call.NewRequest method path body)
  pure (c.newRequest method path body)

/-- `c.Do(ctx, req, v)` for a non-nil target `v`: records the call and executes it. -/
def Client.Do (c : Client) {T : Type} (dec : Decoder T) (ctx : Context) (req : Request)
    (v : T) : Traced (Option Response × Option Error × T) := do
  Traced.record (Call.Do ctx req false)
  pure (c.doInto T dec ctx req v)

/-- `c.Do(ctx, req, nil)`: records the call and executes it. -/
def Client.DoNil (c : Client) (ctx : Context) (req : Request) :
    Traced (Option Response × Option Error) := do
  Traced.record (Call.Do ctx req true)
  pure (c.doNil ctx req)

/-! ## encoding/json: serialising a struct -/

/-- A struct field as `json.Marshal` sees it by reflection: its tag name, whether the tag
says `omitempty`, its Go type `α`, how to read it, whether a value of that type is empty
(false, 0, a nil pointer, a nil interface value, an empty slice or string), and the document
a value serialises to. -/
structure OutField (P : Type) where
  tag : String
  omitempty : Bool
  α : Type
  get : P → α
  isEmpty : α → Bool
  enc : α → Json

/-- Whether `json.Marshal` leaves the field out: it is tagged `omitempty` and empty. -/
def OutField.omitted {P : Type} (f : OutField P) (p : P) : Bool :=
  f.omitempty && f.isEmpty (f.get p)

/-- The member a field contributes to the object. -/
def OutField.member {P : Type} (f : OutField P) (p : P) : String × Json :=
  (f.tag, f.enc (f.get p))

/-- The object `json.Marshal` produces for a struct: one member per field that is not left
out, in declaration order. -/
def marshalStruct {P : Type} (fields : List (OutField P)) (p : P) : Json :=
  Json.obj ((fields.filter fun f => !f.omitted p).map fun f => f.member p)

/-- Serialisation of a pointer: `null` when nil, the pointee otherwise. -/
def encPtr {α : Type} (enc : α → Json) : Option α → Json
  | none => Json.null
  | some a => enc a

/-- Serialisation of a slice: `null` when nil, an array of the elements otherwise. -/
def encSlice {α : Type} (enc : α → Json) : Slice α → Json
  | none => Json.null
  | some xs => Json.arr (xs.map enc)

/-- Whether a slice is empty: it has length zero, nil or not. -/
def sliceIsEmpty {α : Type} : Slice α → Bool
  | none => true
  | some xs => xs.isEmpty

/-- Serialisation of an `interface{}`: `null` when nil, the held value otherwise. -/
def encAny : Option Json → Json
  | none => Json.null
  | some j => j

/-! ## encoding/json: decoding into a struct -/

/-- The case folding `encoding/json` applies to member names before comparing them with
field names: ASCII letters are upper-cased, and the two non-ASCII runes whose fold class
contains an ASCII letter (KELVIN SIGN, LATIN SMALL LETTER LONG S) go to that letter. Every
other rune folds to a non-ASCII rune and is kept as it is, which leaves the comparison with
an ASCII field name unchanged. -/
def foldRune (c : Char) : Char :=
  if 97 ≤ c.toNat ∧ c.toNat ≤ 122 then Char.ofNat (c.toNat - 32)
  else if c.toNat = 0x212A then Char.ofNat 75
  else if c.toNat = 0x17F then Char.ofNat 83
  else c

/-- A member name, folded. -/
def foldName (s : String) : String := String.mk (s.data.map foldRune)

/-- A struct field as `json.Unmarshal` sees it by reflection: its tag name, its Go type `α`,
how to read and write it, and how a document is decoded into a value of that type (the
second argument of `dec` is the field's current value). -/
structure Field (T : Type) where
  tag : String
  α : Type
  get : T → α
  put : T → α → T
  dec : Decoder α

/-- The field a member name selects: an exact match of the tag name if there is one,
otherwise the first field whose folded name matches; `none` if the name is unknown. -/
def lookupField {T : Type} (fields : List (Field T)) (k : String) : Option (Field T) :=
  match fields.find? (fun f => decide (f.tag = k)) with
  | some f => some f
  | none => fields.find? (fun f => decide (foldName f.tag = foldName k))

/-- Decoding one object member into a struct: unknown names are skipped. -/
def decodeMember {T : Type} (fields : List (Field T)) (v : T) (k : String) (j : Json) :
    Except Error T :=
  match lookupField fields k with
  | none => .ok v
  | some f => (f.dec j (f.get v)).map (f.put v)

/-- Decoding the members of an object into a struct, in document order. -/
def decodeMembers {T : Type} (fields : List (Field T)) :
    List (String × Json) → T → Except Error T
  | [], v => .ok v
  | (k, j) :: rest, v =>
    match decodeMember fields v k j with
    | .ok v1 => decodeMembers fields rest v1
    | .error e => .error e

/-- The error `json.Unmarshal` reports for a document of the wrong kind. -/
def typeError (goType : String) : Error :=
  Error.decode ("json: cannot unmarshal into Go value of type " ++ goType)

/-- Decoding a document into a struct: `null` leaves it as it is, an object fills it member
by member, anything else is a type error. -/
def decodeStruct {T : Type} (fields : List (Field T)) : Decoder T
  | .obj kvs, v => decodeMembers fields kvs v
  | .null, v => .ok v
  | _, _ => .error (typeError "struct")

/-- Decoding into a `string`. -/
def decString : Decoder String
  | .null, old => .ok old
  | .str s, _ => .ok s
  | _, _ => .error (typeError "string")

/-- Decoding into an `int` (64 bits). -/
def decInt : Decoder Int
  | .null, old => .ok old
  | .num n, _ =>
    if -(2 : Int) ^ 63 ≤ n ∧ n < (2 : Int) ^ 63 then .ok n else .error (typeError "int")
  | _, _ => .error (typeError "int")

/-- Decoding into a `bool`. -/
def decBool : Decoder Bool
  | .null, old => .ok old
  | .bool b, _ => .ok b
  | _, _ => .error (typeError "bool")

/-- Decoding into a pointer: `null` sets it to nil; any other document is decoded into the
pointee, allocated with the zero value when the pointer is nil. -/
def decPtr {α : Type} (zero : α) (dec : Decoder α) : Decoder (Option α)
  | .null, _ => .ok none
  | j, old => (dec j (old.getD zero)).map some

/-- Decoding the elements of an array into a slice whose current elements are `olds`: the
element at a position the slice already has is decoded into the element that is there, any
further element into a fresh zero value. -/
def decodeAll {α : Type} (zero : α) (dec : Decoder α) :
    List Json → List α → Except Error (List α)
  | [], _ => .ok []
  | j :: js, olds =>
    match dec j (olds.headD zero) with
    | .error e => .error e
    | .ok a =>
      match decodeAll zero dec js olds.tail with
      | .error e => .error e
      | .ok as => .ok (a :: as)

/-- Decoding into a slice: `null` sets it to nil, an array to the decoded elements in order
(the empty array to an empty, non-nil slice). A slice already filled by an earlier member of
the same name has its elements decoded into; what is not modelled is the backing array
beyond the length of the slice, whose elements an earlier, longer array may have left
behind. -/
def decSlice {α : Type} (zero : α) (dec : Decoder α) : Decoder (Slice α)
  | .null, _ => .ok none
  | .arr xs, old => (decodeAll zero dec xs (old.getD [])).map some
  | _, _ => .error (typeError "slice")

/-- Decoding into an `interface{}`: `null` sets it to nil, any other document is stored as
the corresponding Go value. -/
def decAny : Decoder (Option Json)
  | .null, _ => .ok none
  | j, _ => .ok (some j)

/-- The declarations the three files use and do not contain: `time.Time` with its zero value
and its `UnmarshalJSON`, the two role list item structs with their zero values and decoders,
and the package function `addQuery`. -/
structure External where
  Time : Type
  timeZero : Time
  timeDec : Decoder Time
  OrganizationRoleListItem : Type
  roleZero : OrganizationRoleListItem
  roleDec : Decoder OrganizationRoleListItem
  TeamRoleListItem : Type
  teamRoleZero : TeamRoleListItem
  teamRoleDec : Decoder TeamRoleListItem
  addQuery : String → Option ListCursorParams → Except Error String

/-! ## external_users.go -/

/-- The Go struct `CreateExternalUserParams`. -/
structure CreateExternalUserParams where
  UserID : Int
  ExternalName : String
  ExternalProvider : String
  IntegrationID : Int
  ID : Int
  ExternalID : String

/-- The fields of `CreateExternalUserParams` with their tags, in declaration order. -/
def CreateExternalUserParams.fields : List (OutField CreateExternalUserParams) := [
  ⟨"user_id", false, _, fun p => p.UserID, fun x => decide (x = 0), Json.num⟩,
  ⟨"external_name", false, _, fun p => p.ExternalName, fun x => decide (x = ""), Json.str⟩,
  ⟨"provider", false, _, fun p => p.ExternalProvider, fun x => decide (x = ""), Json.str⟩,
  ⟨"integration_id", false, _, fun p => p.IntegrationID, fun x => decide (x = 0), Json.num⟩,
  ⟨"id", false, _, fun p => p.ID, fun x => decide (x = 0), Json.num⟩,
  ⟨"external_id", true, _, fun p => p.ExternalID, fun x => decide (x = ""), Json.str⟩]

/-- The document `json.Marshal` produces for a `CreateExternalUserParams`. -/
def CreateExternalUserParams.marshal (p : CreateExternalUserParams) : Json :=
  marshalStruct CreateExternalUserParams.fields p

/-- The Go struct `ExternalUser`. -/
structure ExternalUser where
  ID : String
  UserID : String
  ExternalName : String
  Provider : String
  IntegrationID : String

/-- The zero value `new(ExternalUser)` points to. -/
def ExternalUser.zero : ExternalUser where
  ID := ""
  UserID := ""
  ExternalName := ""
  Provider := ""
  IntegrationID := ""

/-- The fields of `ExternalUser` with their tags, in declaration order. -/
def ExternalUser.fields : List (Field ExternalUser) := [
  ⟨"id", _, fun v => v.ID, fun v x => { v with ID := x }, decString⟩,
  ⟨"userId", _, fun v => v.UserID, fun v x => { v with UserID := x }, decString⟩,
  ⟨"externalName", _, fun v => v.ExternalName, fun v x => { v with ExternalName := x }, decString⟩,
  ⟨"provider", _, fun v => v.Provider, fun v x => { v with Provider := x }, decString⟩,
  ⟨"integrationId", _, fun v => v.IntegrationID, fun v x => { v with IntegrationID := x },
    decString⟩]

/-- What `json.Unmarshal` does with a `*ExternalUser` target. -/
def ExternalUser.unmarshal : Decoder ExternalUser :=
  decodeStruct (ExternalUser.fields)

/-- The Go alias `UpdateExternalUserParams = CreateExternalUserParams`. -/
abbrev UpdateExternalUserParams := CreateExternalUserParams

/-- The Go type `ExternalUserService`. -/
abbrev ExternalUserService := service

/-- The Go method `ExternalUserService.Create`. -/
def ExternalUserService.Create (s : ExternalUserService) (ctx : Context)
    (organizationIDOrSlug : String) (params : Option CreateExternalUserParams) :
    Traced (Option ExternalUser × Option Response × Option Error) := do
  let u := "0/organizations/" ++ organizationIDOrSlug ++ "/external-users/"
  match ← s.client.NewRequest "POST" u (some (encPtr CreateExternalUserParams.marshal params)) with
  | .error err => return (none, none, some err)
  | .ok req =>
    let externalUser := ExternalUser.zero
    match ← s.client.Do ExternalUser.unmarshal ctx req externalUser with
    | (resp, some err, _) => return (none, resp, some err)
    | (resp, none, externalUser) => return (some externalUser, resp, none)

/-- The Go method `ExternalUserService.Update`. -/
def ExternalUserService.Update (s : ExternalUserService) (ctx : Context)
    (organizationIDOrSlug : String) (externalUserMappingID : String)
    (params : Option UpdateExternalUserParams) :
    Traced (Option ExternalUser × Option Response × Option Error) := do
  let u := "0/organizations/" ++ organizationIDOrSlug ++ "/external-users/" ++
    externalUserMappingID ++ "/"
  match ← s.client.NewRequest "PUT" u (some (encPtr CreateExternalUserParams.marshal params)) with
  | .error err => return (none, none, some err)
  | .ok req =>
    let updatedExternalUser := ExternalUser.zero
    match ← s.client.Do ExternalUser.unmarshal ctx req updatedExternalUser with
    | (resp, some err, _) => return (none, resp, some err)
    | (resp, none, updatedExternalUser) => return (some updatedExternalUser, resp, none)

/-- The Go method `ExternalUserService.Delete`. -/
def ExternalUserService.Delete (s : ExternalUserService) (ctx : Context)
    (organizationIDOrSlug : String) (externalUserID : String) :
    Traced (Option Response × Option Error) := do
  let u := "0/organizations/" ++ organizationIDOrSlug ++ "/external-users/" ++
    externalUserID ++ "/"
  match ← s.client.NewRequest "DELETE" u none with
  | .error err => return (none, some err)
  | .ok req => s.client.DoNil ctx req

/-! ## uptime.go -/

/-- The Go struct `Owner`. The Go field `Type` is `Type_` here, `Type` being a keyword. -/
structure Owner where
  Type_ : String
  ID : String

/-- The zero value `new(Owner)` points to. -/
def Owner.zero : Owner where
  Type_ := ""
  ID := ""

/-- The fields of `Owner` with their tags, in declaration order. -/
def Owner.fields : List (Field Owner) := [
  ⟨"type", _, fun v => v.Type_, fun v x => { v with Type_ := x }, decString⟩,
  ⟨"id", _, fun v => v.ID, fun v x => { v with ID := x }, decString⟩]

/-- What `json.Unmarshal` does with a `*Owner` target. -/
def Owner.unmarshal : Decoder Owner :=
  decodeStruct (Owner.fields)

/-- The Go struct `UptimeMonitor`. -/
structure UptimeMonitor where
  ID : Option String
  Name : Option String
  URL : Option String
  IntervalSeconds : Option Int
  TimeoutMs : Option Int
  Status : Option String
  Owner : Option Owner
  Environment : Option String
  Method : Option String
  Headers : Option Json
  Body : Option String
  TraceSampling : Option Bool

/-- The zero value `new(UptimeMonitor)` points to. -/
def UptimeMonitor.zero : UptimeMonitor where
  ID := none
  Name := none
  URL := none
  IntervalSeconds := none
  TimeoutMs := none
  Status := none
  Owner := none
  Environment := none
  Method := none
  Headers := none
  Body := none
  TraceSampling := none

/-- The fields of `UptimeMonitor` with their tags, in declaration order. -/
def UptimeMonitor.fields : List (Field UptimeMonitor) := [
  ⟨"id", _, fun v => v.ID, fun v x => { v with ID := x }, decPtr "" decString⟩,
  ⟨"name", _, fun v => v.Name, fun v x => { v with Name := x }, decPtr "" decString⟩,
  ⟨"url", _, fun v => v.URL, fun v x => { v with URL := x }, decPtr "" decString⟩,
  ⟨"intervalSeconds", _, fun v => v.IntervalSeconds, fun v x => { v with IntervalSeconds := x },
    decPtr 0 decInt⟩,
  ⟨"timeoutMs", _, fun v => v.TimeoutMs, fun v x => { v with TimeoutMs := x }, decPtr 0 decInt⟩,
  ⟨"status", _, fun v => v.Status, fun v x => { v with Status := x }, decPtr "" decString⟩,
  ⟨"owner", _, fun v => v.Owner, fun v x => { v with Owner := x },
    decPtr Owner.zero Owner.unmarshal⟩,
  ⟨"environment", _, fun v => v.Environment, fun v x => { v with Environment := x },
    decPtr "" decString⟩,
  ⟨"method", _, fun v => v.Method, fun v x => { v with Method := x }, decPtr "" decString⟩,
  ⟨"headers", _, fun v => v.Headers, fun v x => { v with Headers := x }, decAny⟩,
  ⟨"body", _, fun v => v.Body, fun v x => { v with Body := x }, decPtr "" decString⟩,
  ⟨"traceSampling", _, fun v => v.TraceSampling, fun v x => { v with TraceSampling := x },
    decPtr false decBool⟩]

/-- What `json.Unmarshal` does with a `*UptimeMonitor` target. -/
def UptimeMonitor.unmarshal : Decoder UptimeMonitor :=
  decodeStruct (UptimeMonitor.fields)

/-- The Go struct `UptimeMonitorParams`. -/
structure UptimeMonitorParams where
  Name : Option String
  URL : Option String
  IntervalSeconds : Option Int
  TimeoutMs : Option Int
  Status : Option String
  Owner : Option String
  Environment : Option String
  Method : Option String
  Headers : Option Json
  Body : Option String
  TraceSampling : Option Bool

/-- The fields of `UptimeMonitorParams` with their tags, in declaration order. -/
def UptimeMonitorParams.fields : List (OutField UptimeMonitorParams) := [
  ⟨"name", true, _, fun p => p.Name, Option.isNone, encPtr Json.str⟩,
  ⟨"url", true, _, fun p => p.URL, Option.isNone, encPtr Json.str⟩,
  ⟨"interval_seconds", true, _, fun p => p.IntervalSeconds, Option.isNone, encPtr Json.num⟩,
  ⟨"timeout_ms", true, _, fun p => p.TimeoutMs, Option.isNone, encPtr Json.num⟩,
  ⟨"status", true, _, fun p => p.Status, Option.isNone, encPtr Json.str⟩,
  ⟨"owner", true, _, fun p => p.Owner, Option.isNone, encPtr Json.str⟩,
  ⟨"environment", true, _, fun p => p.Environment, Option.isNone, encPtr Json.str⟩,
  ⟨"method", true, _, fun p => p.Method, Option.isNone, encPtr Json.str⟩,
  ⟨"headers", true, _, fun p => p.Headers, Option.isNone, encAny⟩,
  ⟨"body", true, _, fun p => p.Body, Option.isNone, encPtr Json.str⟩,
  ⟨"trace_sampling", true, _, fun p => p.TraceSampling, Option.isNone, encPtr Json.bool⟩]

/-- The document `json.Marshal` produces for a `UptimeMonitorParams`. -/
def UptimeMonitorParams.marshal (p : UptimeMonitorParams) : Json :=
  marshalStruct UptimeMonitorParams.fields p

/-- The Go type `UptimeService`. -/
abbrev UptimeService := service

/-- The Go method `UptimeService.Get`. -/
def UptimeService.Get (s : UptimeService) (ctx : Context)
    (organizationSlug projectSlug monitorID : String) :
    Traced (Option UptimeMonitor × Option Response × Option Error) := do
  let u := "0/projects/" ++ organizationSlug ++ "/" ++ projectSlug ++ "/uptime/" ++
    monitorID ++ "/"
  match ← s.client.NewRequest "GET" u none with
  | .error err => return (none, none, some err)
  | .ok req =>
    let monitor := UptimeMonitor.zero
    match ← s.client.Do UptimeMonitor.unmarshal ctx req monitor with
    | (resp, some err, _) => return (none, resp, some err)
    | (resp, none, monitor) => return (some monitor, resp, none)

/-- The Go method `UptimeService.Create`. -/
def UptimeService.Create (s : UptimeService) (ctx : Context)
    (organizationSlug projectSlug : String) (params : Option UptimeMonitorParams) :
    Traced (Option UptimeMonitor × Option Response × Option Error) := do
  let u := "0/projects/" ++ organizationSlug ++ "/" ++ projectSlug ++ "/uptime/"
  match ← s.client.NewRequest "POST" u (some (encPtr UptimeMonitorParams.marshal params)) with
  | .error err => return (none, none, some err)
  | .ok req =>
    let monitor := UptimeMonitor.zero
    match ← s.client.Do UptimeMonitor.unmarshal ctx req monitor with
    | (resp, some err, _) => return (none, resp, some err)
    | (resp, none, monitor) => return (some monitor, resp, none)

/-- The Go method `UptimeService.Update`. -/
def UptimeService.Update (s : UptimeService) (ctx : Context)
    (organizationSlug projectSlug monitorID : String) (params : Option UptimeMonitorParams) :
    Traced (Option UptimeMonitor × Option Response × Option Error) := do
  let u := "0/projects/" ++ organizationSlug ++ "/" ++ projectSlug ++ "/uptime/" ++
    monitorID ++ "/"
  match ← s.client.NewRequest "PUT" u (some (encPtr UptimeMonitorParams.marshal params)) with
  | .error err => return (none, none, some err)
  | .ok req =>
    let monitor := UptimeMonitor.zero
    match ← s.client.Do UptimeMonitor.unmarshal ctx req monitor with
    | (resp, some err, _) => return (none, resp, some err)
    | (resp, none, monitor) => return (some monitor, resp, none)

/-- The Go method `UptimeService.Delete`. -/
def UptimeService.Delete (s : UptimeService) (ctx : Context)
    (organizationSlug projectSlug monitorID : String) :
    Traced (Option Response × Option Error) := do
  let u := "0/projects/" ++ organizationSlug ++ "/" ++ projectSlug ++ "/uptime/" ++
    monitorID ++ "/"
  match ← s.client.NewRequest "DELETE" u none with
  | .error err => return (none, some err)
  | .ok req =>
    let (resp, err) ← s.client.DoNil ctx req
    return (resp, err)

/-! ## organizations.go -/

/-- The Go struct `OrganizationStatus`. -/
structure OrganizationStatus where
  ID : Option String
  Name : Option String

/-- The zero value `new(OrganizationStatus)` points to. -/
def OrganizationStatus.zero : OrganizationStatus where
  ID := none
  Name := none

/-- The fields of `OrganizationStatus` with their tags, in declaration order. -/
def OrganizationStatus.fields : List (Field OrganizationStatus) := [
  ⟨"id", _, fun v => v.ID, fun v x => { v with ID := x }, decPtr "" decString⟩,
  ⟨"name", _, fun v => v.Name, fun v x => { v with Name := x }, decPtr "" decString⟩]

/-- What `json.Unmarshal` does with a `*OrganizationStatus` target. -/
def OrganizationStatus.unmarshal : Decoder OrganizationStatus :=
  decodeStruct (OrganizationStatus.fields)

/-- The Go struct `OrganizationQuota`. -/
structure OrganizationQuota where
  MaxRate : Option Int
  MaxRateInterval : Option Int
  AccountLimit : Option Int
  ProjectLimit : Option Int

/-- The zero value `new(OrganizationQuota)` points to. -/
def OrganizationQuota.zero : OrganizationQuota where
  MaxRate := none
  MaxRateInterval := none
  AccountLimit := none
  ProjectLimit := none

/-- The fields of `OrganizationQuota` with their tags, in declaration order. -/
def OrganizationQuota.fields : List (Field OrganizationQuota) := [
  ⟨"maxRate", _, fun v => v.MaxRate, fun v x => { v with MaxRate := x }, decPtr 0 decInt⟩,
  ⟨"maxRateInterval", _, fun v => v.MaxRateInterval, fun v x => { v with MaxRateInterval := x },
    decPtr 0 decInt⟩,
  ⟨"accountLimit", _, fun v => v.AccountLimit, fun v x => { v with AccountLimit := x },
    decPtr 0 decInt⟩,
  ⟨"projectLimit", _, fun v => v.ProjectLimit, fun v x => { v with ProjectLimit := x },
    decPtr 0 decInt⟩]

/-- What `json.Unmarshal` does with a `*OrganizationQuota` target. -/
def OrganizationQuota.unmarshal : Decoder OrganizationQuota :=
  decodeStruct (OrganizationQuota.fields)

/-- The Go struct `OrganizationAvailableRole`. -/
structure OrganizationAvailableRole where
  ID : Option String
  Name : Option String

/-- The zero value `new(OrganizationAvailableRole)` points to. -/
def OrganizationAvailableRole.zero : OrganizationAvailableRole where
  ID := none
  Name := none

/-- The fields of `OrganizationAvailableRole` with their tags, in declaration order. -/
def OrganizationAvailableRole.fields : List (Field OrganizationAvailableRole) := [
  ⟨"id", _, fun v => v.ID, fun v x => { v with ID := x }, decPtr "" decString⟩,
  ⟨"name", _, fun v => v.Name, fun v x => { v with Name := x }, decPtr "" decString⟩]

/-- What `json.Unmarshal` does with a `*OrganizationAvailableRole` target. -/
def OrganizationAvailableRole.unmarshal : Decoder OrganizationAvailableRole :=
  decodeStruct (OrganizationAvailableRole.fields)

/-- The Go struct `OrganizationAvatar`. -/
structure OrganizationAvatar where
  AvatarType : Option String
  AvatarUUID : Option String

/-- The zero value `new(OrganizationAvatar)` points to. -/
def OrganizationAvatar.zero : OrganizationAvatar where
  AvatarType := none
  AvatarUUID := none

/-- The fields of `OrganizationAvatar` with their tags, in declaration order. -/
def OrganizationAvatar.fields : List (Field OrganizationAvatar) := [
  ⟨"avatarType", _, fun v => v.AvatarType, fun v x => { v with AvatarType := x },
    decPtr "" decString⟩,
  ⟨"avatarUuid", _, fun v => v.AvatarUUID, fun v x => { v with AvatarUUID := x },
    decPtr "" decString⟩]

/-- What `json.Unmarshal` does with a `*OrganizationAvatar` target. -/
def OrganizationAvatar.unmarshal : Decoder OrganizationAvatar :=
  decodeStruct (OrganizationAvatar.fields)

/-- The Go struct `TrustedRelay`. -/
structure TrustedRelay (E : External) where
  ID : Option String
  Name : Option String
  PublicKey : Option String
  Description : Option String
  DateCreated : Option E.Time
  LastSeen : Option E.Time

/-- The zero value `new(TrustedRelay)` points to. -/
def TrustedRelay.zero (E : External) : TrustedRelay E where
  ID := none
  Name := none
  PublicKey := none
  Description := none
  DateCreated := none
  LastSeen := none

/-- The fields of `TrustedRelay` with their tags, in declaration order. -/
def TrustedRelay.fields (E : External) : List (Field (TrustedRelay E)) := [
  ⟨"id", _, fun v => v.ID, fun v x => { v with ID := x }, decPtr "" decString⟩,
  ⟨"name", _, fun v => v.Name, fun v x => { v with Name := x }, decPtr "" decString⟩,
  ⟨"publicKey", _, fun v => v.PublicKey, fun v x => { v with PublicKey := x },
    decPtr "" decString⟩,
  ⟨"description", _, fun v => v.Description, fun v x => { v with Description := x },
    decPtr "" decString⟩,
  ⟨"dateCreated", _, fun v => v.DateCreated, fun v x => { v with DateCreated := x },
    decPtr E.timeZero E.timeDec⟩,
  ⟨"lastSeen", _, fun v => v.LastSeen, fun v x => { v with LastSeen := x },
    decPtr E.timeZero E.timeDec⟩]

/-- What `json.Unmarshal` does with a `*TrustedRelay` target. -/
def TrustedRelay.unmarshal (E : External) : Decoder (TrustedRelay E) :=
  decodeStruct (TrustedRelay.fields E)

/-- The Go struct `Organization`. -/
structure Organization (E : External) where
  ID : Option String
  Slug : Option String
  Status : Option OrganizationStatus
  Name : Option String
  DateCreated : Option E.Time
  IsEarlyAdopter : Option Bool
  Require2FA : Option Bool
  RequireEmailVerification : Option Bool
  Avatar : Option OrganizationAvatar
  Features : Slice String
  Quota : Option OrganizationQuota
  IsDefault : Option Bool
  DefaultRole : Option String
  AvailableRoles : Slice OrganizationAvailableRole
  OrgRoleList : Slice E.OrganizationRoleListItem
  TeamRoleList : Slice E.TeamRoleListItem
  OpenMembership : Option Bool
  AllowSharedIssues : Option Bool
  EnhancedPrivacy : Option Bool
  DataScrubber : Option Bool
  DataScrubberDefaults : Option Bool
  SensitiveFields : Slice String
  SafeFields : Slice String
  StoreCrashReports : Option Int
  AttachmentsRole : Option String
  DebugFilesRole : Option String
  EventsMemberAdmin : Option Bool
  AlertsMemberWrite : Option Bool
  ScrubIPAddresses : Option Bool
  ScrapeJavaScript : Option Bool
  AllowJoinRequests : Option Bool
  RelayPiiConfig : Option String
  TrustedRelays : Slice (TrustedRelay E)
  Access : Slice String
  Role : Option String
  PendingAccessRequests : Option Int
  HideAIFeatures : Option Bool
  CodecovAccess : Option Bool
  GithubPRBot : Option Bool
  GithubOpenPRBot : Option Bool
  GithubNudgeInvite : Option Bool
  GitlabPRBot : Option Bool
  AllowMemberProjectCreation : Option Bool

/-- The zero value `new(Organization)` points to. -/
def Organization.zero (E : External) : Organization E where
  ID := none
  Slug := none
  Status := none
  Name := none
  DateCreated := none
  IsEarlyAdopter := none
  Require2FA := none
  RequireEmailVerification := none
  Avatar := none
  Features := none
  Quota := none
  IsDefault := none
  DefaultRole := none
  AvailableRoles := none
  OrgRoleList := none
  TeamRoleList := none
  OpenMembership := none
  AllowSharedIssues := none
  EnhancedPrivacy := none
  DataScrubber := none
  DataScrubberDefaults := none
  SensitiveFields := none
  SafeFields := none
  StoreCrashReports := none
  AttachmentsRole := none
  DebugFilesRole := none
  EventsMemberAdmin := none
  AlertsMemberWrite := none
  ScrubIPAddresses := none
  ScrapeJavaScript := none
  AllowJoinRequests := none
  RelayPiiConfig := none
  TrustedRelays := none
  Access := none
  Role := none
  PendingAccessRequests := none
  HideAIFeatures := none
  CodecovAccess := none
  GithubPRBot := none
  GithubOpenPRBot := none
  GithubNudgeInvite := none
  GitlabPRBot := none
  AllowMemberProjectCreation := none

/-- The fields of `Organization` with their tags, in declaration order. -/
def Organization.fields (E : External) : List (Field (Organization E)) := [
  ⟨"id", _, fun v => v.ID, fun v x => { v with ID := x }, decPtr "" decString⟩,
  ⟨"slug", _, fun v => v.Slug, fun v x => { v with Slug := x }, decPtr "" decString⟩,
  ⟨"status", _, fun v => v.Status, fun v x => { v with Status := x },
    decPtr OrganizationStatus.zero OrganizationStatus.unmarshal⟩,
  ⟨"name", _, fun v => v.Name, fun v x => { v with Name := x }, decPtr "" decString⟩,
  ⟨"dateCreated", _, fun v => v.DateCreated, fun v x => { v with DateCreated := x },
    decPtr E.timeZero E.timeDec⟩,
  ⟨"isEarlyAdopter", _, fun v => v.IsEarlyAdopter, fun v x => { v with IsEarlyAdopter := x },
    decPtr false decBool⟩,
  ⟨"require2FA", _, fun v => v.Require2FA, fun v x => { v with Require2FA := x },
    decPtr false decBool⟩,
  ⟨"requireEmailVerification", _, fun v => v.RequireEmailVerification,
    fun v x => { v with RequireEmailVerification := x }, decPtr false decBool⟩,
  ⟨"avatar", _, fun v => v.Avatar, fun v x => { v with Avatar := x },
    decPtr OrganizationAvatar.zero OrganizationAvatar.unmarshal⟩,
  ⟨"features", _, fun v => v.Features, fun v x => { v with Features := x }, decSlice "" decString⟩,
  ⟨"quota", _, fun v => v.Quota, fun v x => { v with Quota := x },
    decPtr OrganizationQuota.zero OrganizationQuota.unmarshal⟩,
  ⟨"isDefault", _, fun v => v.IsDefault, fun v x => { v with IsDefault := x },
    decPtr false decBool⟩,
  ⟨"defaultRole", _, fun v => v.DefaultRole, fun v x => { v with DefaultRole := x },
    decPtr "" decString⟩,
  ⟨"availableRoles", _, fun v => v.AvailableRoles, fun v x => { v with AvailableRoles := x },
    decSlice OrganizationAvailableRole.zero OrganizationAvailableRole.unmarshal⟩,
  ⟨"orgRoleList", _, fun v => v.OrgRoleList, fun v x => { v with OrgRoleList := x },
    decSlice E.roleZero E.roleDec⟩,
  ⟨"teamRoleList", _, fun v => v.TeamRoleList, fun v x => { v with TeamRoleList := x },
    decSlice E.teamRoleZero E.teamRoleDec⟩,
  ⟨"openMembership", _, fun v => v.OpenMembership, fun v x => { v with OpenMembership := x },
    decPtr false decBool⟩,
  ⟨"allowSharedIssues", _, fun v => v.AllowSharedIssues,
    fun v x => { v with AllowSharedIssues := x }, decPtr false decBool⟩,
  ⟨"enhancedPrivacy", _, fun v => v.EnhancedPrivacy, fun v x => { v with EnhancedPrivacy := x },
    decPtr false decBool⟩,
  ⟨"dataScrubber", _, fun v => v.DataScrubber, fun v x => { v with DataScrubber := x },
    decPtr false decBool⟩,
  ⟨"dataScrubberDefaults", _, fun v => v.DataScrubberDefaults,
    fun v x => { v with DataScrubberDefaults := x }, decPtr false decBool⟩,
  ⟨"sensitiveFields", _, fun v => v.SensitiveFields, fun v x => { v with SensitiveFields := x },
    decSlice "" decString⟩,
  ⟨"safeFields", _, fun v => v.SafeFields, fun v x => { v with SafeFields := x },
    decSlice "" decString⟩,
  ⟨"storeCrashReports", _, fun v => v.StoreCrashReports,
    fun v x => { v with StoreCrashReports := x }, decPtr 0 decInt⟩,
  ⟨"attachmentsRole", _, fun v => v.AttachmentsRole, fun v x => { v with AttachmentsRole := x },
    decPtr "" decString⟩,
  ⟨"debugFilesRole", _, fun v => v.DebugFilesRole, fun v x => { v with DebugFilesRole := x },
    decPtr "" decString⟩,
  ⟨"eventsMemberAdmin", _, fun v => v.EventsMemberAdmin,
    fun v x => { v with EventsMemberAdmin := x }, decPtr false decBool⟩,
  ⟨"alertsMemberWrite", _, fun v => v.AlertsMemberWrite,
    fun v x => { v with AlertsMemberWrite := x }, decPtr false decBool⟩,
  ⟨"scrubIPAddresses", _, fun v => v.ScrubIPAddresses,
    fun v x => { v with ScrubIPAddresses := x }, decPtr false decBool⟩,
  ⟨"scrapeJavaScript", _, fun v => v.ScrapeJavaScript,
    fun v x => { v with ScrapeJavaScript := x }, decPtr false decBool⟩,
  ⟨"allowJoinRequests", _, fun v => v.AllowJoinRequests,
    fun v x => { v with AllowJoinRequests := x }, decPtr false decBool⟩,
  ⟨"relayPiiConfig", _, fun v => v.RelayPiiConfig, fun v x => { v with RelayPiiConfig := x },
    decPtr "" decString⟩,
  ⟨"trustedRelays", _, fun v => v.TrustedRelays, fun v x => { v with TrustedRelays := x },
    decSlice (TrustedRelay.zero E) (TrustedRelay.unmarshal E)⟩,
  ⟨"access", _, fun v => v.Access, fun v x => { v with Access := x }, decSlice "" decString⟩,
  ⟨"role", _, fun v => v.Role, fun v x => { v with Role := x }, decPtr "" decString⟩,
  ⟨"pendingAccessRequests", _, fun v => v.PendingAccessRequests,
    fun v x => { v with PendingAccessRequests := x }, decPtr 0 decInt⟩,
  ⟨"hideAiFeatures", _, fun v => v.HideAIFeatures, fun v x => { v with HideAIFeatures := x },
    decPtr false decBool⟩,
  ⟨"codecovAccess", _, fun v => v.CodecovAccess, fun v x => { v with CodecovAccess := x },
    decPtr false decBool⟩,
  ⟨"githubPRBot", _, fun v => v.GithubPRBot, fun v x => { v with GithubPRBot := x },
    decPtr false decBool⟩,
  ⟨"githubOpenPRBot", _, fun v => v.GithubOpenPRBot, fun v x => { v with GithubOpenPRBot := x },
    decPtr false decBool⟩,
  ⟨"githubNudgeInvite", _, fun v => v.GithubNudgeInvite,
    fun v x => { v with GithubNudgeInvite := x }, decPtr false decBool⟩,
  ⟨"gitlabPRBot", _, fun v => v.GitlabPRBot, fun v x => { v with GitlabPRBot := x },
    decPtr false decBool⟩,
  ⟨"allowMemberProjectCreation", _, fun v => v.AllowMemberProjectCreation,
    fun v x => { v with AllowMemberProjectCreation := x }, decPtr false decBool⟩]

/-- What `json.Unmarshal` does with a `*Organization` target. -/
def Organization.unmarshal (E : External) : Decoder (Organization E) :=
  decodeStruct (Organization.fields E)

/-- The Go struct `CreateOrganizationParams`. -/
structure CreateOrganizationParams where
  Name : Option String
  Slug : Option String
  AgreeTerms : Option Bool

/-- The fields of `CreateOrganizationParams` with their tags, in declaration order. -/
def CreateOrganizationParams.fields : List (OutField CreateOrganizationParams) := [
  ⟨"name", true, _, fun p => p.Name, Option.isNone, encPtr Json.str⟩,
  ⟨"slug", true, _, fun p => p.Slug, Option.isNone, encPtr Json.str⟩,
  ⟨"agreeTerms", true, _, fun p => p.AgreeTerms, Option.isNone, encPtr Json.bool⟩]

/-- The document `json.Marshal` produces for a `CreateOrganizationParams`. -/
def CreateOrganizationParams.marshal (p : CreateOrganizationParams) : Json :=
  marshalStruct CreateOrganizationParams.fields p

/-- The Go struct `TrustedRelayUpdateParams`. -/
structure TrustedRelayUpdateParams where
  Name : Option String
  PublicKey : Option String
  Description : Option String

/-- The fields of `TrustedRelayUpdateParams` with their tags, in declaration order. -/
def TrustedRelayUpdateParams.fields : List (OutField TrustedRelayUpdateParams) := [
  ⟨"name", true, _, fun p => p.Name, Option.isNone, encPtr Json.str⟩,
  ⟨"publicKey", true, _, fun p => p.PublicKey, Option.isNone, encPtr Json.str⟩,
  ⟨"description", true, _, fun p => p.Description, Option.isNone, encPtr Json.str⟩]

/-- The document `json.Marshal` produces for a `TrustedRelayUpdateParams`. -/
def TrustedRelayUpdateParams.marshal (p : TrustedRelayUpdateParams) : Json :=
  marshalStruct TrustedRelayUpdateParams.fields p

/-- The Go struct `UpdateOrganizationParams`. -/
structure UpdateOrganizationParams where
  Name : Option String
  Slug : Option String
  IsEarlyAdopter : Option Bool
  HideAIFeatures : Option Bool
  CodecovAccess : Option Bool
  DefaultRole : Option String
  OpenMembership : Option Bool
  EventsMemberAdmin : Option Bool
  AlertsMemberWrite : Option Bool
  AttachmentsRole : Option String
  DebugFilesRole : Option String
  AvatarType : Option String
  Avatar : Option String
  Require2FA : Option Bool
  AllowSharedIssues : Option Bool
  EnhancedPrivacy : Option Bool
  ScrapeJavaScript : Option Bool
  StoreCrashReports : Option Int
  AllowJoinRequests : Option Bool
  DataScrubber : Option Bool
  DataScrubberDefaults : Option Bool
  SensitiveFields : Slice String
  SafeFields : Slice String
  ScrubIPAddresses : Option Bool
  RelayPiiConfig : Option String
  TrustedRelays : Slice TrustedRelayUpdateParams
  GithubPRBot : Option Bool
  GithubOpenPRBot : Option Bool
  GithubNudgeInvite : Option Bool
  GitlabPRBot : Option Bool
  AllowMemberProjectCreation : Option Bool

/-- The fields of `UpdateOrganizationParams` with their tags, in declaration order. -/
def UpdateOrganizationParams.fields : List (OutField UpdateOrganizationParams) := [
  ⟨"name", true, _, fun p => p.Name, Option.isNone, encPtr Json.str⟩,
  ⟨"slug", true, _, fun p => p.Slug, Option.isNone, encPtr Json.str⟩,
  ⟨"isEarlyAdopter", true, _, fun p => p.IsEarlyAdopter, Option.isNone, encPtr Json.bool⟩,
  ⟨"hideAiFeatures", true, _, fun p => p.HideAIFeatures, Option.isNone, encPtr Json.bool⟩,
  ⟨"codecovAccess", true, _, fun p => p.CodecovAccess, Option.isNone, encPtr Json.bool⟩,
  ⟨"defaultRole", true, _, fun p => p.DefaultRole, Option.isNone, encPtr Json.str⟩,
  ⟨"openMembership", true, _, fun p => p.OpenMembership, Option.isNone, encPtr Json.bool⟩,
  ⟨"eventsMemberAdmin", true, _, fun p => p.EventsMemberAdmin, Option.isNone, encPtr Json.bool⟩,
  ⟨"alertsMemberWrite", true, _, fun p => p.AlertsMemberWrite, Option.isNone, encPtr Json.bool⟩,
  ⟨"attachmentsRole", true, _, fun p => p.AttachmentsRole, Option.isNone, encPtr Json.str⟩,
  ⟨"debugFilesRole", true, _, fun p => p.DebugFilesRole, Option.isNone, encPtr Json.str⟩,
  ⟨"avatarType", true, _, fun p => p.AvatarType, Option.isNone, encPtr Json.str⟩,
  ⟨"avatar", true, _, fun p => p.Avatar, Option.isNone, encPtr Json.str⟩,
  ⟨"require2FA", true, _, fun p => p.Require2FA, Option.isNone, encPtr Json.bool⟩,
  ⟨"allowSharedIssues", true, _, fun p => p.AllowSharedIssues, Option.isNone, encPtr Json.bool⟩,
  ⟨"enhancedPrivacy", true, _, fun p => p.EnhancedPrivacy, Option.isNone, encPtr Json.bool⟩,
  ⟨"scrapeJavaScript", true, _, fun p => p.ScrapeJavaScript, Option.isNone, encPtr Json.bool⟩,
  ⟨"storeCrashReports", true, _, fun p => p.StoreCrashReports, Option.isNone, encPtr Json.num⟩,
  ⟨"allowJoinRequests", true, _, fun p => p.AllowJoinRequests, Option.isNone, encPtr Json.bool⟩,
  ⟨"dataScrubber", true, _, fun p => p.DataScrubber, Option.isNone, encPtr Json.bool⟩,
  ⟨"dataScrubberDefaults", true, _, fun p => p.DataScrubberDefaults,
    Option.isNone, encPtr Json.bool⟩,
  ⟨"sensitiveFields", true, _, fun p => p.SensitiveFields, sliceIsEmpty, encSlice Json.str⟩,
  ⟨"safeFields", true, _, fun p => p.SafeFields, sliceIsEmpty, encSlice Json.str⟩,
  ⟨"scrubIPAddresses", true, _, fun p => p.ScrubIPAddresses, Option.isNone, encPtr Json.bool⟩,
  ⟨"relayPiiConfig", true, _, fun p => p.RelayPiiConfig, Option.isNone, encPtr Json.str⟩,
  ⟨"trustedRelays", true, _, fun p => p.TrustedRelays,
    sliceIsEmpty, encSlice TrustedRelayUpdateParams.marshal⟩,
  ⟨"githubPRBot", true, _, fun p => p.GithubPRBot, Option.isNone, encPtr Json.bool⟩,
  ⟨"githubOpenPRBot", true, _, fun p => p.GithubOpenPRBot, Option.isNone, encPtr Json.bool⟩,
  ⟨"githubNudgeInvite", true, _, fun p => p.GithubNudgeInvite, Option.isNone, encPtr Json.bool⟩,
  ⟨"gitlabPRBot", true, _, fun p => p.GitlabPRBot, Option.isNone, encPtr Json.bool⟩,
  ⟨"allowMemberProjectCreation", true, _, fun p => p.AllowMemberProjectCreation,
    Option.isNone, encPtr Json.bool⟩]

/-- The document `json.Marshal` produces for a `UpdateOrganizationParams`. -/
def UpdateOrganizationParams.marshal (p : UpdateOrganizationParams) : Json :=
  marshalStruct UpdateOrganizationParams.fields p

/-- The Go type `OrganizationsService`. -/
abbrev OrganizationsService := service

/-- What `json.Unmarshal` does with a `*[]*Organization` target. -/
def Organization.unmarshalList (E : External) : Decoder (Slice (Option (Organization E))) :=
  decSlice none (decPtr (Organization.zero E) (Organization.unmarshal E))

/-- The Go method `OrganizationsService.List`. -/
def OrganizationsService.List (E : External) (s : OrganizationsService) (ctx : Context)
    (params : Option ListCursorParams) :
    Traced (Slice (Option (Organization E)) × Option Response × Option Error) := do
  match E.addQuery "0/organizations/" params with
  | .error err => return (none, none, some err)
  | .ok u =>
    match ← s.client.NewRequest "GET" u none with
    | .error err => return (none, none, some err)
    | .ok req =>
      let orgs : Slice (Option (Organization E)) := some []
      match ← s.client.Do (Organization.unmarshalList E) ctx req orgs with
      | (resp, some err, _) => return (none, resp, some err)
      | (resp, none, orgs) => return (orgs, resp, none)

/-- The Go method `OrganizationsService.Get`. -/
def OrganizationsService.Get (E : External) (s : OrganizationsService) (ctx : Context)
    (slug : String) : Traced (Option (Organization E) × Option Response × Option Error) := do
  let u := "0/organizations/" ++ slug ++ "/"
  match ← s.client.NewRequest "GET" u none with
  | .error err => return (none, none, some err)
  | .ok req =>
    let org := Organization.zero E
    match ← s.client.Do (Organization.unmarshal E) ctx req org with
    | (resp, some err, _) => return (none, resp, some err)
    | (resp, none, org) => return (some org, resp, none)

/-- The Go method `OrganizationsService.Create`. -/
def OrganizationsService.Create (E : External) (s : OrganizationsService) (ctx : Context)
    (params : Option CreateOrganizationParams) :
    Traced (Option (Organization E) × Option Response × Option Error) := do
  let u := "0/organizations/"
  match ← s.client.NewRequest "POST" u (some (encPtr CreateOrganizationParams.marshal params)) with
  | .error err => return (none, none, some err)
  | .ok req =>
    let org := Organization.zero E
    match ← s.client.Do (Organization.unmarshal E) ctx req org with
    | (resp, some err, _) => return (none, resp, some err)
    | (resp, none, org) => return (some org, resp, none)

/-- The Go method `OrganizationsService.Update`. -/
def OrganizationsService.Update (E : External) (s : OrganizationsService) (ctx : Context)
    (slug : String) (params : Option UpdateOrganizationParams) :
    Traced (Option (Organization E) × Option Response × Option Error) := do
  let u := "0/organizations/" ++ slug ++ "/"
  match ← s.client.NewRequest "PUT" u (some (encPtr UpdateOrganizationParams.marshal params)) with
  | .error err => return (none, none, some err)
  | .ok req =>
    let org := Organization.zero E
    match ← s.client.Do (Organization.unmarshal E) ctx req org with
    | (resp, some err, _) => return (none, resp, some err)
    | (resp, none, org) => return (some org, resp, none)

/-- The Go method `OrganizationsService.Delete`. -/
def OrganizationsService.Delete (s : OrganizationsService) (ctx : Context) (slug : String) :
    Traced (Option Response × Option Error) := do
  let u := "0/organizations/" ++ slug ++ "/"
  match ← s.client.NewRequest "DELETE" u none with
  | .error err => return (none, some err)
  | .ok req => s.client.DoNil ctx req

/-! ## Observing a method call -/

/-- The path of a `NewRequest` call. -/
def Call.path? : Call → Option String
  | .NewRequest _ path _ => some path
  | .Do _ _ _ => none

/-- The path a method builds its request for: that of the first call it makes. -/
def Traced.requestPath {α : Type} (m : Traced α) : Option String :=
  m.calls.head?.bind Call.path?

/-- An identifier that does not contain the character `/`. -/
def slashFree (s : String) : Prop := ¬ '/' ∈ s.data

instance (s : String) : Decidable (slashFree s) := by unfold slashFree; infer_instance

/-- No retry, for a method whose request is `method path body`: the method invokes
`NewRequest` at most once and `Do` at most once; when the request is built, the calls it makes
are exactly that `NewRequest` followed by one `Do` on the request built (with a nil target
or not, as `nilTarget` says), whatever `Do` returns; when the request is not built, that
`NewRequest` alone. -/
def NoRetry (c : Client) (ctx : Context) (method path : String) (body : Option Json)
    (nilTarget : Bool) {α : Type} (m : Traced α) : Prop :=
  m.calls.countP Call.isNewRequest ≤ 1 ∧ m.calls.countP Call.isDo ≤ 1 ∧
  (∀ req, c.newRequest method path body = .ok req →
    m.calls = [Call.NewRequest method path body, Call.Do ctx req nilTarget] ∧
    m.calls.countP Call.isNewRequest = 1 ∧ m.calls.countP Call.isDo = 1) ∧
  (∀ err, c.newRequest method path body = .error err →
    m.calls = [Call.NewRequest method path body])

/-- Failing fast: when `NewRequest` fails for the request `method path body`, the method
returns a nil value, a nil response and that error, and `NewRequest` is the only call made. -/
def FailsFast (c : Client) (method path : String) (body : Option Json) {T : Type}
    (m : Traced (Option T × Option Response × Option Error)) : Prop :=
  ∀ err, c.newRequest method path body = .error err →
    m.result = (none, none, some err) ∧ m.calls = [Call.NewRequest method path body]

/-- Failing fast, for the methods that return no value. -/
def FailsFastNil (c : Client) (method path : String) (body : Option Json)
    (m : Traced (Option Response × Option Error)) : Prop :=
  ∀ err, c.newRequest method path body = .error err →
    m.result = (none, some err) ∧ m.calls = [Call.NewRequest method path body]

/-- Propagation of an error of `Do`: when the request `method path body` is built and `Do`
on it, with the target `target`, returns the response `resp` and the error `err`, the method
returns a nil value, `resp` and `err`. -/
def PropagatesDoError (c : Client) (ctx : Context) (method path : String) (body : Option Json)
    {T R : Type} (dec : Decoder T) (target : T)
    (m : Traced (Option R × Option Response × Option Error)) : Prop :=
  ∀ req resp err v, c.newRequest method path body = .ok req →
    c.doInto T dec ctx req target = (resp, some err, v) → m.result = (none, resp, some err)

/-- The response a method returns is the one `Do` returned, whatever the error, when the
request `method path body` is built; it is nil when the request is not built. -/
def ReturnsDoResponse (c : Client) (ctx : Context) (method path : String) (body : Option Json)
    {T R : Type} (dec : Decoder T) (target : T)
    (m : Traced (R × Option Response × Option Error)) : Prop :=
  (∀ req, c.newRequest method path body = .ok req →
    m.result.2.1 = (c.doInto T dec ctx req target).1) ∧
  (∀ err, c.newRequest method path body = .error err →
    m.result.2.1 = none ∧ m.result.2.2 = some err)

/-- The same, for the methods that call `Do` with a nil target. -/
def ReturnsDoResponseNil (c : Client) (ctx : Context) (method path : String)
    (body : Option Json) (m : Traced (Option Response × Option Error)) : Prop :=
  (∀ req, c.newRequest method path body = .ok req → m.result = c.doNil ctx req) ∧
  (∀ err, c.newRequest method path body = .error err → m.result = (none, some err))

/-- The outcome of the pattern every value-returning method follows, in closed form: build the
request; if that fails, stop; otherwise execute it once with the target. -/
def roundTrip (c : Client) {T : Type} (dec : Decoder T) (ctx : Context) (method path : String)
    (body : Option Json) (target : T) :
    (Option T × Option Response × Option Error) × List Call :=
  match c.newRequest method path body with
  | .error err => ((none, none, some err), [Call.NewRequest method path body])
  | .ok req =>
    match c.doInto T dec ctx req target with
    | (resp, some err, _) =>
      ((none, resp, some err), [Call.NewRequest method path body, Call.Do ctx req false])
    | (resp, none, v) =>
      ((some v, resp, none), [Call.NewRequest method path body, Call.Do ctx req false])

/-- The outcome of `OrganizationsService.List` once the path is built, in closed form. -/
def roundTripSlice (c : Client) {T : Type} (dec : Decoder (Slice T)) (ctx : Context)
    (method path : String) (body : Option Json) (target : Slice T) :
    (Slice T × Option Response × Option Error) × List Call :=
  match c.newRequest method path body with
  | .error err => ((none, none, some err), [Call.NewRequest method path body])
  | .ok req =>
    match c.doInto (Slice T) dec ctx req target with
    | (resp, some err, _) =>
      ((none, resp, some err), [Call.NewRequest method path body, Call.Do ctx req false])
    | (resp, none, v) =>
      ((v, resp, none), [Call.NewRequest method path body, Call.Do ctx req false])

/-- The outcome of the pattern every `Delete` follows, in closed form. -/
def roundTripNil (c : Client) (ctx : Context) (method path : String) (body : Option Json) :
    (Option Response × Option Error) × List Call :=
  match c.newRequest method path body with
  | .error err => ((none, some err), [Call.NewRequest method path body])
  | .ok req => (c.doNil ctx req, [Call.NewRequest method path body, Call.Do ctx req true])

/-- A transport whose request builder rejects every request, and whose execute step reports
a transport failure without a response. -/
def brokenClient : Client where
  newRequest := fun _ _ _ => .error (Error.construction "invalid path")
  doInto := fun _ _ _ _ v => (none, some (Error.transport "unreachable"), v)
  doNil := fun _ _ => (none, some (Error.transport "unreachable"))

/-- A transport that builds every request and answers each with the given status code and,
for a status in the 200s, the given document decoded into the target; any other status is a
service error. -/
def mockClient (statusCode : Nat) (payload : Json) : Client where
  newRequest := fun method path body => .ok ⟨method, path, body⟩
  doInto := fun _ dec _ _ v =>
    if 200 ≤ statusCode ∧ statusCode < 300 then
      match dec payload v with
      | .ok v1 => (some ⟨statusCode, none⟩, none, v1)
      | .error e => (some ⟨statusCode, none⟩, some e, v)
    else (some ⟨statusCode, none⟩, some (Error.service statusCode "error"), v)
  doNil := fun _ _ =>
    if 200 ≤ statusCode ∧ statusCode < 300 then (some ⟨statusCode, none⟩, none)
    else (some ⟨statusCode, none⟩, some (Error.service statusCode "error"))

/-- An `External` with trivial types, for concrete evaluations. -/
def External.unit : External where
  Time := Unit
  timeZero := ()
  timeDec := fun _ _ => .ok ()
  OrganizationRoleListItem := Unit
  roleZero := ()
  roleDec := fun _ _ => .ok ()
  TeamRoleListItem := Unit
  teamRoleZero := ()
  teamRoleDec := fun _ _ => .ok ()
  addQuery := fun path params =>
    match params with
    | some ⟨some cursor⟩ => .ok (path ++ "?cursor=" ++ cursor)
    | _ => .ok path

/-- An `External` whose `addQuery` fails. -/
def External.badQuery : External :=
  { External.unit with addQuery := fun _ _ => .error (Error.construction "bad query") }

/-! ## Observing a decoded document -/

/-- The attribute tagged `t` is absent from the members: no member name selects the field. -/
def Absent (t : String) (kvs : List (String × Json)) : Prop :=
  ∀ p ∈ kvs, foldName p.1 ≠ foldName t

/-- The attribute tagged `t` is explicitly set to the document `z`: the last member whose
name selects the field has the value `z`. -/
def SetTo (t : String) (z : Json) (kvs : List (String × Json)) : Prop :=
  ∃ pre k post, kvs = pre ++ (k, z) :: post ∧ foldName k = foldName t ∧ Absent t post

/-- The zero values of the scalar attributes, as documents: the empty string, 0, false. -/
def zeroDocs : List Json := [Json.str "", Json.num 0, Json.bool false]

/-- A struct seen as the list of its field values, each with its type. -/
def view {T : Type} (fields : List (Field T)) (v : T) : List (Σ α : Type, α) :=
  fields.map fun f => ⟨f.α, f.get v⟩

/-- Writing the field at position `i + j` of the table `all` changes that position of the
view and no other, for every position `j` of the part `fs` of the table. -/
def FramedFrom {T : Type} (all : List (Field T)) : Nat → List (Field T) → Prop
  | _, [] => True
  | i, f :: fs =>
    (∀ v a, view all (f.put v a) = (view all v).set i ⟨f.α, a⟩) ∧ FramedFrom all (i + 1) fs

/-- What a table of fields has to satisfy to describe a struct: no two tag names fold to the
same name, and the fields are independent storage locations. -/
structure Lawful {T : Type} (fields : List (Field T)) : Prop where
  nodup : (fields.map fun f => foldName f.tag).Nodup
  framed : FramedFrom fields 0 fields

/-- A field of pointer, slice or interface type: decoding any document other than `null`
into it leaves it different from what it is in the zero struct (nil). -/
def NonNil {T : Type} (zero : T) (g : Field T) : Prop :=
  ∀ z, z ≠ Json.null → ∀ old a, g.dec z old = .ok a → a ≠ g.get zero

/-- Absent and explicitly zero are told apart: for every attribute and every zero value, a
response in which the attribute is absent and a response in which it is explicitly set to
the zero value never decode (into a fresh struct) to equal values. -/
def Distinguishes {T : Type} (fields : List (Field T)) (zero : T) : Prop :=
  ∀ g ∈ fields, ∀ z ∈ zeroDocs, ∀ kvsA kvsZ vA vZ,
    Absent g.tag kvsA → SetTo g.tag z kvsZ →
    decodeStruct fields (Json.obj kvsA) zero = .ok vA →
    decodeStruct fields (Json.obj kvsZ) zero = .ok vZ → vA ≠ vZ

/-- Absent and explicitly empty are not told apart: for every attribute, adding it with the
empty string to a response in which it is absent leaves the decoded value the same. -/
def Conflates {T : Type} (fields : List (Field T)) (zero : T) : Prop :=
  ∀ g ∈ fields, ∀ kvs v, Absent g.tag kvs →
    decodeStruct fields (Json.obj kvs) zero = .ok v →
    decodeStruct fields (Json.obj ((g.tag, Json.str "") :: kvs)) zero = .ok v

/-- What the caller of a Create or Update expects of a field it may set: a member with the
tag and the value set when the field is set (`some`), and no member when it is left unset
(`none`). -/
def sent (tag : String) : Option Json → List (String × Json)
  | none => []
  | some j => [(tag, j)]

/-- What the body carries of a slice field: a member with the tag and the array of the
elements when the slice has at least one element, and no member when it is nil or has been
set to the empty slice. -/
def sentSlice {α : Type} (tag : String) (enc : α → Json) : Slice α → List (String × Json)
  | some (x :: xs) => [(tag, Json.arr (enc x :: xs.map enc))]
  | _ => []

/-! ## The concrete scenario of the uptime monitor -/

/-- The parameters `{Name: "api-health", URL: "https://api.example.com/health",
IntervalSeconds: 60}`, every other field unset. -/
def apiHealthParams : UptimeMonitorParams where
  Name := some "api-health"
  URL := some "https://api.example.com/health"
  IntervalSeconds := some 60
  TimeoutMs := none
  Status := none
  Owner := none
  Environment := none
  Method := none
  Headers := none
  Body := none
  TraceSampling := none

/-- The body expected for `apiHealthParams`: the name, the URL and the interval of 60. -/
def apiHealthBody : Json :=
  Json.obj [("name", Json.str "api-health"), ("url", Json.str "https://api.example.com/health"),
    ("interval_seconds", Json.num 60)]

/-- The answer `{id: "mon_1", name: "api-health", status: "active"}` of the service. -/
def mon1Answer : Json :=
  Json.obj [("id", Json.str "mon_1"), ("name", Json.str "api-health"),
    ("status", Json.str "active")]

/-- The external user parameters with nothing set. -/
def CreateExternalUserParams.unset : CreateExternalUserParams := ⟨0, "", "", 0, 0, ""⟩

/-- The organization update in which the caller sets `SensitiveFields` to the empty list, to
clear it, and nothing else. -/
def sensitiveFieldsCleared : UpdateOrganizationParams where
  Name := none
  Slug := none
  IsEarlyAdopter := none
  HideAIFeatures := none
  CodecovAccess := none
  DefaultRole := none
  OpenMembership := none
  EventsMemberAdmin := none
  AlertsMemberWrite := none
  AttachmentsRole := none
  DebugFilesRole := none
  AvatarType := none
  Avatar := none
  Require2FA := none
  AllowSharedIssues := none
  EnhancedPrivacy := none
  ScrapeJavaScript := none
  StoreCrashReports := none
  AllowJoinRequests := none
  DataScrubber := none
  DataScrubberDefaults := none
  SensitiveFields := some []
  SafeFields := none
  ScrubIPAddresses := none
  RelayPiiConfig := none
  TrustedRelays := none
  GithubPRBot := none
  GithubOpenPRBot := none
  GithubNudgeInvite := none
  GitlabPRBot := none
  AllowMemberProjectCreation := none

/-! ## The methods in closed form -/

theorem Traced.pure_apply {α : Type} (a : α) (log : List Call) :
    (pure a : Traced α) log = (a, log) := rfl

theorem Traced.bind_apply {α β : Type} (m : Traced α) (f : α → Traced β) (log : List Call) :
    (m >>= f) log = f (m log).1 (m log).2 := rfl

theorem Client.NewRequest_apply (c : Client) (method path : String) (body : Option Json)
    (log : List Call) :
    c.NewRequest method path body log =
      (c.newRequest method path body, log ++ [Call.NewRequest method path body]) := rfl

theorem Client.Do_apply (c : Client) {T : Type} (dec : Decoder T) (ctx : Context)
    (req : Request) (v : T) (log : List Call) :
    c.Do dec ctx req v log = (c.doInto T dec ctx req v, log ++ [Call.Do ctx req false]) := rfl

theorem Client.DoNil_apply (c : Client) (ctx : Context) (req : Request) (log : List Call) :
    c.DoNil ctx req log = (c.doNil ctx req, log ++ [Call.Do ctx req true]) := rfl

theorem externalUser_create_eq (s : ExternalUserService) (ctx : Context)
    (org : String) (params : Option CreateExternalUserParams) :
    ExternalUserService.Create s ctx org params [] =
      roundTrip s.client ExternalUser.unmarshal ctx "POST"
        ("0/organizations/" ++ org ++ "/external-users/")
        (some (encPtr CreateExternalUserParams.marshal params)) ExternalUser.zero := by
  simp only [ExternalUserService.Create, roundTrip, Traced.bind_apply, Client.NewRequest_apply]
  cases s.client.newRequest "POST" ("0/organizations/" ++ org ++ "/external-users/")
    (some (encPtr CreateExternalUserParams.marshal params)) with
  | error e => rfl
  | ok req =>
    simp only [Traced.bind_apply, Client.Do_apply]
    rcases s.client.doInto ExternalUser ExternalUser.unmarshal ctx req ExternalUser.zero with
      ⟨resp, _ | err, v⟩ <;> rfl

theorem externalUser_update_eq (s : ExternalUserService) (ctx : Context)
    (org id : String) (params : Option UpdateExternalUserParams) :
    ExternalUserService.Update s ctx org id params [] =
      roundTrip s.client ExternalUser.unmarshal ctx "PUT"
        ("0/organizations/" ++ org ++ "/external-users/" ++ id ++ "/")
        (some (encPtr CreateExternalUserParams.marshal params)) ExternalUser.zero := by
  simp only [ExternalUserService.Update, roundTrip, Traced.bind_apply, Client.NewRequest_apply]
  cases s.client.newRequest "PUT" ("0/organizations/" ++ org ++ "/external-users/" ++ id ++ "/")
    (some (encPtr CreateExternalUserParams.marshal params)) with
  | error e => rfl
  | ok req =>
    simp only [Traced.bind_apply, Client.Do_apply]
    rcases s.client.doInto ExternalUser ExternalUser.unmarshal ctx req ExternalUser.zero with
      ⟨resp, _ | err, v⟩ <;> rfl

theorem externalUser_delete_eq (s : ExternalUserService) (ctx : Context)
    (org id : String) :
    ExternalUserService.Delete s ctx org id [] =
      roundTripNil s.client ctx "DELETE"
        ("0/organizations/" ++ org ++ "/external-users/" ++ id ++ "/") none := by
  simp only [ExternalUserService.Delete, roundTripNil, Traced.bind_apply,
    Client.NewRequest_apply]
  cases s.client.newRequest "DELETE"
    ("0/organizations/" ++ org ++ "/external-users/" ++ id ++ "/") none with
  | error e => rfl
  | ok req => rfl

theorem uptime_get_eq (s : UptimeService) (ctx : Context) (org project id : String) :
    UptimeService.Get s ctx org project id [] =
      roundTrip s.client UptimeMonitor.unmarshal ctx "GET"
        ("0/projects/" ++ org ++ "/" ++ project ++ "/uptime/" ++ id ++ "/") none
        UptimeMonitor.zero := by
  simp only [UptimeService.Get, roundTrip, Traced.bind_apply, Client.NewRequest_apply]
  cases s.client.newRequest "GET"
    ("0/projects/" ++ org ++ "/" ++ project ++ "/uptime/" ++ id ++ "/") none with
  | error e => rfl
  | ok req =>
    simp only [Traced.bind_apply, Client.Do_apply]
    rcases s.client.doInto UptimeMonitor UptimeMonitor.unmarshal ctx req UptimeMonitor.zero with
      ⟨resp, _ | err, v⟩ <;> rfl

theorem uptime_create_eq (s : UptimeService) (ctx : Context) (org project : String)
    (params : Option UptimeMonitorParams) :
    UptimeService.Create s ctx org project params [] =
      roundTrip s.client UptimeMonitor.unmarshal ctx "POST"
        ("0/projects/" ++ org ++ "/" ++ project ++ "/uptime/")
        (some (encPtr UptimeMonitorParams.marshal params)) UptimeMonitor.zero := by
  simp only [UptimeService.Create, roundTrip, Traced.bind_apply, Client.NewRequest_apply]
  cases s.client.newRequest "POST" ("0/projects/" ++ org ++ "/" ++ project ++ "/uptime/")
    (some (encPtr UptimeMonitorParams.marshal params)) with
  | error e => rfl
  | ok req =>
    simp only [Traced.bind_apply, Client.Do_apply]
    rcases s.client.doInto UptimeMonitor UptimeMonitor.unmarshal ctx req UptimeMonitor.zero with
      ⟨resp, _ | err, v⟩ <;> rfl

theorem uptime_update_eq (s : UptimeService) (ctx : Context) (org project id : String)
    (params : Option UptimeMonitorParams) :
    UptimeService.Update s ctx org project id params [] =
      roundTrip s.client UptimeMonitor.unmarshal ctx "PUT"
        ("0/projects/" ++ org ++ "/" ++ project ++ "/uptime/" ++ id ++ "/")
        (some (encPtr UptimeMonitorParams.marshal params)) UptimeMonitor.zero := by
  simp only [UptimeService.Update, roundTrip, Traced.bind_apply, Client.NewRequest_apply]
  cases s.client.newRequest "PUT"
    ("0/projects/" ++ org ++ "/" ++ project ++ "/uptime/" ++ id ++ "/")
    (some (encPtr UptimeMonitorParams.marshal params)) with
  | error e => rfl
  | ok req =>
    simp only [Traced.bind_apply, Client.Do_apply]
    rcases s.client.doInto UptimeMonitor UptimeMonitor.unmarshal ctx req UptimeMonitor.zero with
      ⟨resp, _ | err, v⟩ <;> rfl

theorem uptime_delete_eq (s : UptimeService) (ctx : Context) (org project id : String) :
    UptimeService.Delete s ctx org project id [] =
      roundTripNil s.client ctx "DELETE"
        ("0/projects/" ++ org ++ "/" ++ project ++ "/uptime/" ++ id ++ "/") none := by
  simp only [UptimeService.Delete, roundTripNil, Traced.bind_apply, Client.NewRequest_apply]
  cases s.client.newRequest "DELETE"
    ("0/projects/" ++ org ++ "/" ++ project ++ "/uptime/" ++ id ++ "/") none with
  | error e => rfl
  | ok req => rfl

theorem organizations_list_eq (E : External) (s : OrganizationsService) (ctx : Context)
    (params : Option ListCursorParams) :
    OrganizationsService.List E s ctx params [] =
      match E.addQuery "0/organizations/" params with
      | .error err => ((none, none, some err), [])
      | .ok u =>
        roundTripSlice s.client (Organization.unmarshalList E) ctx "GET" u none (some []) := by
  simp only [OrganizationsService.List, roundTripSlice]
  cases E.addQuery "0/organizations/" params with
  | error e => rfl
  | ok u =>
    simp only [Traced.bind_apply, Client.NewRequest_apply]
    cases s.client.newRequest "GET" u none with
    | error e => rfl
    | ok req =>
      simp only [Traced.bind_apply, Client.Do_apply]
      rcases s.client.doInto (Slice (Option (Organization E))) (Organization.unmarshalList E)
        ctx req (some []) with ⟨resp, _ | err, v⟩ <;> rfl

theorem organizations_get_eq (E : External) (s : OrganizationsService) (ctx : Context)
    (slug : String) :
    OrganizationsService.Get E s ctx slug [] =
      roundTrip s.client (Organization.unmarshal E) ctx "GET"
        ("0/organizations/" ++ slug ++ "/") none (Organization.zero E) := by
  simp only [OrganizationsService.Get, roundTrip, Traced.bind_apply, Client.NewRequest_apply]
  cases s.client.newRequest "GET" ("0/organizations/" ++ slug ++ "/") none with
  | error e => rfl
  | ok req =>
    simp only [Traced.bind_apply, Client.Do_apply]
    rcases s.client.doInto (Organization E) (Organization.unmarshal E) ctx req
      (Organization.zero E) with ⟨resp, _ | err, v⟩ <;> rfl

theorem organizations_create_eq (E : External) (s : OrganizationsService)
    (ctx : Context) (params : Option CreateOrganizationParams) :
    OrganizationsService.Create E s ctx params [] =
      roundTrip s.client (Organization.unmarshal E) ctx "POST" "0/organizations/"
        (some (encPtr CreateOrganizationParams.marshal params)) (Organization.zero E) := by
  simp only [OrganizationsService.Create, roundTrip, Traced.bind_apply, Client.NewRequest_apply]
  cases s.client.newRequest "POST" "0/organizations/"
    (some (encPtr CreateOrganizationParams.marshal params)) with
  | error e => rfl
  | ok req =>
    simp only [Traced.bind_apply, Client.Do_apply]
    rcases s.client.doInto (Organization E) (Organization.unmarshal E) ctx req
      (Organization.zero E) with ⟨resp, _ | err, v⟩ <;> rfl

theorem organizations_update_eq (E : External) (s : OrganizationsService)
    (ctx : Context) (slug : String) (params : Option UpdateOrganizationParams) :
    OrganizationsService.Update E s ctx slug params [] =
      roundTrip s.client (Organization.unmarshal E) ctx "PUT"
        ("0/organizations/" ++ slug ++ "/")
        (some (encPtr UpdateOrganizationParams.marshal params)) (Organization.zero E) := by
  simp only [OrganizationsService.Update, roundTrip, Traced.bind_apply, Client.NewRequest_apply]
  cases s.client.newRequest "PUT" ("0/organizations/" ++ slug ++ "/")
    (some (encPtr UpdateOrganizationParams.marshal params)) with
  | error e => rfl
  | ok req =>
    simp only [Traced.bind_apply, Client.Do_apply]
    rcases s.client.doInto (Organization E) (Organization.unmarshal E) ctx req
      (Organization.zero E) with ⟨resp, _ | err, v⟩ <;> rfl

theorem organizations_delete_eq (s : OrganizationsService) (ctx : Context)
    (slug : String) :
    OrganizationsService.Delete s ctx slug [] =
      roundTripNil s.client ctx "DELETE" ("0/organizations/" ++ slug ++ "/") none := by
  simp only [OrganizationsService.Delete, roundTripNil, Traced.bind_apply,
    Client.NewRequest_apply]
  cases s.client.newRequest "DELETE" ("0/organizations/" ++ slug ++ "/") none with
  | error e => rfl
  | ok req => rfl

/-! ## Properties of the closed forms -/

section closedForms

variable {T : Type} (c : Client) (dec : Decoder T) (ctx : Context) (method path : String)
  (body : Option Json)

theorem roundTrip_error (target : T) (e : Error)
    (hn : c.newRequest method path body = .error e) :
    roundTrip c dec ctx method path body target =
      ((none, none, some e), [Call.NewRequest method path body]) := by
  simp only [roundTrip, hn]

theorem roundTrip_ok (target : T) (req : Request) (resp : Option Response) (v : T)
    (hn : c.newRequest method path body = .ok req)
    (hd : c.doInto T dec ctx req target = (resp, none, v)) :
    roundTrip c dec ctx method path body target =
      ((some v, resp, none), [Call.NewRequest method path body, Call.Do ctx req false]) := by
  simp only [roundTrip, hn, hd]

theorem roundTrip_ok_error (target : T) (req : Request) (resp : Option Response) (err : Error)
    (v : T) (hn : c.newRequest method path body = .ok req)
    (hd : c.doInto T dec ctx req target = (resp, some err, v)) :
    roundTrip c dec ctx method path body target =
      ((none, resp, some err), [Call.NewRequest method path body, Call.Do ctx req false]) := by
  simp only [roundTrip, hn, hd]

theorem roundTripSlice_error (dec : Decoder (Slice T)) (target : Slice T) (e : Error)
    (hn : c.newRequest method path body = .error e) :
    roundTripSlice c dec ctx method path body target =
      ((none, none, some e), [Call.NewRequest method path body]) := by
  simp only [roundTripSlice, hn]

theorem roundTripSlice_ok (dec : Decoder (Slice T)) (target : Slice T) (req : Request)
    (resp : Option Response) (v : Slice T)
    (hn : c.newRequest method path body = .ok req)
    (hd : c.doInto (Slice T) dec ctx req target = (resp, none, v)) :
    roundTripSlice c dec ctx method path body target =
      ((v, resp, none), [Call.NewRequest method path body, Call.Do ctx req false]) := by
  simp only [roundTripSlice, hn, hd]

theorem roundTripSlice_ok_error (dec : Decoder (Slice T)) (target : Slice T) (req : Request)
    (resp : Option Response) (err : Error) (v : Slice T)
    (hn : c.newRequest method path body = .ok req)
    (hd : c.doInto (Slice T) dec ctx req target = (resp, some err, v)) :
    roundTripSlice c dec ctx method path body target =
      ((none, resp, some err), [Call.NewRequest method path body, Call.Do ctx req false]) := by
  simp only [roundTripSlice, hn, hd]

theorem roundTripNil_error (e : Error) (hn : c.newRequest method path body = .error e) :
    roundTripNil c ctx method path body =
      ((none, some e), [Call.NewRequest method path body]) := by
  simp only [roundTripNil, hn]

theorem roundTripNil_ok (req : Request) (hn : c.newRequest method path body = .ok req) :
    roundTripNil c ctx method path body =
      (c.doNil ctx req, [Call.NewRequest method path body, Call.Do ctx req true]) := by
  simp only [roundTripNil, hn]

/-- The calls of a round trip: the `NewRequest`, followed by one `Do` when it succeeded. -/
theorem calls_cases (calls : List Call) (nilTarget : Bool)
    (h : (∃ e, c.newRequest method path body = .error e ∧
            calls = [Call.NewRequest method path body]) ∨
         (∃ req, c.newRequest method path body = .ok req ∧
            calls = [Call.NewRequest method path body, Call.Do ctx req nilTarget])) :
    calls.countP Call.isNewRequest ≤ 1 ∧ calls.countP Call.isDo ≤ 1 ∧
    (∀ req, c.newRequest method path body = .ok req →
      calls = [Call.NewRequest method path body, Call.Do ctx req nilTarget] ∧
      calls.countP Call.isNewRequest = 1 ∧ calls.countP Call.isDo = 1) ∧
    (∀ err, c.newRequest method path body = .error err →
      calls = [Call.NewRequest method path body]) := by
  rcases h with ⟨e, hn, rfl⟩ | ⟨req, hn, rfl⟩
  · refine ⟨by simp [Call.isNewRequest], by simp [Call.isDo], ?_, fun _ _ => rfl⟩
    intro req hreq
    rw [hn] at hreq
    cases hreq
  · refine ⟨by simp [Call.isNewRequest, Call.isDo, List.countP_cons],
      by simp [Call.isNewRequest, Call.isDo, List.countP_cons], ?_, ?_⟩
    · intro req1 hreq
      rw [hn] at hreq
      cases hreq
      exact ⟨rfl, by simp [Call.isNewRequest, Call.isDo, List.countP_cons],
        by simp [Call.isNewRequest, Call.isDo, List.countP_cons]⟩
    · intro err herr
      rw [hn] at herr
      cases herr

theorem roundTrip_noRetry (target : T)
    (m : Traced (Option T × Option Response × Option Error))
    (h : m [] = roundTrip c dec ctx method path body target) :
    NoRetry c ctx method path body false m := by
  unfold NoRetry Traced.calls
  rw [h]
  apply calls_cases c ctx method path body _ false
  cases hn : c.newRequest method path body with
  | error e => exact Or.inl ⟨e, rfl, by rw [roundTrip_error c dec ctx method path body target e hn]⟩
  | ok req =>
    refine Or.inr ⟨req, rfl, ?_⟩
    rcases hd : c.doInto T dec ctx req target with ⟨resp, _ | err, v⟩
    · rw [roundTrip_ok c dec ctx method path body target req resp v hn hd]
    · rw [roundTrip_ok_error c dec ctx method path body target req resp err v hn hd]

theorem roundTripSlice_noRetry (dec : Decoder (Slice T)) (target : Slice T)
    (m : Traced (Slice T × Option Response × Option Error))
    (h : m [] = roundTripSlice c dec ctx method path body target) :
    NoRetry c ctx method path body false m := by
  unfold NoRetry Traced.calls
  rw [h]
  apply calls_cases c ctx method path body _ false
  cases hn : c.newRequest method path body with
  | error e =>
    exact Or.inl ⟨e, rfl, by rw [roundTripSlice_error c ctx method path body dec target e hn]⟩
  | ok req =>
    refine Or.inr ⟨req, rfl, ?_⟩
    rcases hd : c.doInto (Slice T) dec ctx req target with ⟨resp, _ | err, v⟩
    · rw [roundTripSlice_ok c ctx method path body dec target req resp v hn hd]
    · rw [roundTripSlice_ok_error c ctx method path body dec target req resp err v hn hd]

theorem roundTripNil_noRetry (m : Traced (Option Response × Option Error))
    (h : m [] = roundTripNil c ctx method path body) :
    NoRetry c ctx method path body true m := by
  unfold NoRetry Traced.calls
  rw [h]
  apply calls_cases c ctx method path body _ true
  cases hn : c.newRequest method path body with
  | error e => exact Or.inl ⟨e, rfl, by rw [roundTripNil_error c ctx method path body e hn]⟩
  | ok req => exact Or.inr ⟨req, rfl, by rw [roundTripNil_ok c ctx method path body req hn]⟩

theorem roundTrip_failsFast (target : T)
    (m : Traced (Option T × Option Response × Option Error))
    (h : m [] = roundTrip c dec ctx method path body target) :
    FailsFast c method path body m := by
  intro err herr
  unfold Traced.result Traced.calls
  rw [h, roundTrip_error c dec ctx method path body target err herr]
  exact ⟨rfl, rfl⟩

theorem roundTripSlice_failsFast (dec : Decoder (Slice T)) (target : Slice T)
    (m : Traced (Slice T × Option Response × Option Error))
    (h : m [] = roundTripSlice c dec ctx method path body target) :
    FailsFast c method path body m := by
  intro err herr
  unfold Traced.result Traced.calls
  rw [h, roundTripSlice_error c ctx method path body dec target err herr]
  exact ⟨rfl, rfl⟩

theorem roundTripNil_failsFast (m : Traced (Option Response × Option Error))
    (h : m [] = roundTripNil c ctx method path body) :
    FailsFastNil c method path body m := by
  intro err herr
  unfold Traced.result Traced.calls
  rw [h, roundTripNil_error c ctx method path body err herr]
  exact ⟨rfl, rfl⟩

theorem roundTrip_propagates (target : T)
    (m : Traced (Option T × Option Response × Option Error))
    (h : m [] = roundTrip c dec ctx method path body target) :
    PropagatesDoError c ctx method path body dec target m := by
  intro req resp err v hreq hdo
  unfold Traced.result
  rw [h, roundTrip_ok_error c dec ctx method path body target req resp err v hreq hdo]

theorem roundTripSlice_propagates (dec : Decoder (Slice T)) (target : Slice T)
    (m : Traced (Slice T × Option Response × Option Error))
    (h : m [] = roundTripSlice c dec ctx method path body target) :
    PropagatesDoError c ctx method path body dec target m := by
  intro req resp err v hreq hdo
  unfold Traced.result
  rw [h, roundTripSlice_ok_error c ctx method path body dec target req resp err v hreq hdo]

theorem roundTrip_response (target : T)
    (m : Traced (Option T × Option Response × Option Error))
    (h : m [] = roundTrip c dec ctx method path body target) :
    ReturnsDoResponse c ctx method path body dec target m := by
  unfold ReturnsDoResponse Traced.result
  rw [h]
  constructor
  · intro req hreq
    rcases hd : c.doInto T dec ctx req target with ⟨resp, _ | err, v⟩
    · rw [roundTrip_ok c dec ctx method path body target req resp v hreq hd]
    · rw [roundTrip_ok_error c dec ctx method path body target req resp err v hreq hd]
  · intro err herr
    rw [roundTrip_error c dec ctx method path body target err herr]
    exact ⟨rfl, rfl⟩

theorem roundTripSlice_response (dec : Decoder (Slice T)) (target : Slice T)
    (m : Traced (Slice T × Option Response × Option Error))
    (h : m [] = roundTripSlice c dec ctx method path body target) :
    ReturnsDoResponse c ctx method path body dec target m := by
  unfold ReturnsDoResponse Traced.result
  rw [h]
  constructor
  · intro req hreq
    rcases hd : c.doInto (Slice T) dec ctx req target with ⟨resp, _ | err, v⟩
    · rw [roundTripSlice_ok c ctx method path body dec target req resp v hreq hd]
    · rw [roundTripSlice_ok_error c ctx method path body dec target req resp err v hreq hd]
  · intro err herr
    rw [roundTripSlice_error c ctx method path body dec target err herr]
    exact ⟨rfl, rfl⟩

theorem roundTripNil_response (m : Traced (Option Response × Option Error))
    (h : m [] = roundTripNil c ctx method path body) :
    ReturnsDoResponseNil c ctx method path body m := by
  unfold ReturnsDoResponseNil Traced.result
  rw [h]
  constructor
  · intro req hreq
    rw [roundTripNil_ok c ctx method path body req hreq]
  · intro err herr
    rw [roundTripNil_error c ctx method path body err herr]

theorem roundTrip_head (target : T) (m : Traced (Option T × Option Response × Option Error))
    (h : m [] = roundTrip c dec ctx method path body target) :
    m.calls.head? = some (Call.NewRequest method path body) := by
  unfold Traced.calls
  rw [h]
  cases hn : c.newRequest method path body with
  | error e => rw [roundTrip_error c dec ctx method path body target e hn]; rfl
  | ok req =>
    rcases hd : c.doInto T dec ctx req target with ⟨resp, _ | err, v⟩
    · rw [roundTrip_ok c dec ctx method path body target req resp v hn hd]; rfl
    · rw [roundTrip_ok_error c dec ctx method path body target req resp err v hn hd]; rfl

theorem roundTripNil_head (m : Traced (Option Response × Option Error))
    (h : m [] = roundTripNil c ctx method path body) :
    m.calls.head? = some (Call.NewRequest method path body) := by
  unfold Traced.calls
  rw [h]
  cases hn : c.newRequest method path body with
  | error e => rw [roundTripNil_error c ctx method path body e hn]; rfl
  | ok req => rw [roundTripNil_ok c ctx method path body req hn]; rfl

theorem roundTripNil_target (m : Traced (Option Response × Option Error))
    (h : m [] = roundTripNil c ctx method path body) :
    ∀ ctx1 req nilTarget, Call.Do ctx1 req nilTarget ∈ m.calls → nilTarget = true := by
  unfold Traced.calls
  rw [h]
  intro ctx1 req nilTarget hmem
  cases hn : c.newRequest method path body with
  | error e =>
    rw [roundTripNil_error c ctx method path body e hn] at hmem
    simp at hmem
  | ok r =>
    rw [roundTripNil_ok c ctx method path body r hn] at hmem
    simp only [List.mem_cons, List.mem_singleton, Call.Do.injEq, false_or, reduceCtorEq,
      List.not_mem_nil, or_false] at hmem
    exact hmem.2.2

end closedForms

/-! ## Lemmas on serialisation -/

theorem members_nil {P : Type} (p : P) :
    (marshalStruct ([] : List (OutField P)) p).members = [] := rfl

theorem members_cons {P : Type} (f : OutField P) (fs : List (OutField P)) (p : P) :
    (marshalStruct (f :: fs) p).members =
      (if f.omitted p then [] else [f.member p]) ++ (marshalStruct fs p).members := by
  unfold marshalStruct Json.members
  cases h : f.omitted p <;> simp [List.filter_cons, h]

theorem member_ptr {P α : Type} (tag : String) (get : P → Option α) (enc : α → Json) (p : P) :
    (if (OutField.mk tag true (Option α) get Option.isNone (encPtr enc)).omitted p then []
      else [(OutField.mk tag true (Option α) get Option.isNone (encPtr enc)).member p]) =
      sent tag ((get p).map enc) := by
  cases h : get p <;> simp [OutField.omitted, OutField.member, sent, encPtr, h]

theorem member_any {P : Type} (tag : String) (get : P → Option Json) (p : P) :
    (if (OutField.mk tag true (Option Json) get Option.isNone encAny).omitted p then []
      else [(OutField.mk tag true (Option Json) get Option.isNone encAny).member p]) =
      sent tag (get p) := by
  cases h : get p <;> simp [OutField.omitted, OutField.member, sent, encAny, h]

theorem member_slice {P α : Type} (tag : String) (get : P → Slice α) (enc : α → Json) (p : P) :
    (if (OutField.mk tag true (Slice α) get sliceIsEmpty (encSlice enc)).omitted p then []
      else [(OutField.mk tag true (Slice α) get sliceIsEmpty (encSlice enc)).member p]) =
      sentSlice tag enc (get p) := by
  rcases h : get p with _ | _ | ⟨x, xs⟩ <;>
    simp [OutField.omitted, OutField.member, sentSlice, sliceIsEmpty, encSlice, h]

/-! ## Lemmas on decoding -/

theorem Except.map_eq_ok {ε α β : Type} (f : α → β) (e : Except ε α) (b : β)
    (h : e.map f = .ok b) : ∃ a, e = .ok a ∧ f a = b := by
  cases e with
  | error err => cases h
  | ok a => exact ⟨a, rfl, by injection h⟩

theorem lookupField_mem {T : Type} (fields : List (Field T)) (k : String) (f : Field T)
    (h : lookupField fields k = some f) : f ∈ fields ∧ foldName f.tag = foldName k := by
  unfold lookupField at h
  cases he : fields.find? (fun f => decide (f.tag = k)) with
  | some f1 =>
    rw [he] at h
    cases h
    have h1 := List.find?_some he
    have h2 := List.mem_of_find?_eq_some he
    simp only [decide_eq_true_eq] at h1
    exact ⟨h2, by rw [h1]⟩
  | none =>
    rw [he] at h
    have h1 := List.find?_some h
    have h2 := List.mem_of_find?_eq_some h
    simp only [decide_eq_true_eq] at h1
    exact ⟨h2, h1⟩

theorem lookupField_of_mem {T : Type} (fields : List (Field T))
    (hnd : (fields.map fun f => foldName f.tag).Nodup) (k : String) (g : Field T)
    (hg : g ∈ fields) (hk : foldName k = foldName g.tag) : lookupField fields k = some g := by
  have hex : ∃ f, lookupField fields k = some f := by
    unfold lookupField
    cases he : fields.find? (fun f => decide (f.tag = k)) with
    | some f1 => exact ⟨f1, rfl⟩
    | none =>
      cases hf : fields.find? (fun f => decide (foldName f.tag = foldName k)) with
      | some f2 => exact ⟨f2, rfl⟩
      | none =>
        rw [List.find?_eq_none] at hf
        exact absurd (by simpa using hk.symm) (hf g hg)
  obtain ⟨f, hf⟩ := hex
  obtain ⟨hmem, htag⟩ := lookupField_mem fields k f hf
  have : f = g := List.inj_on_of_nodup_map hnd hmem hg (by rw [htag, hk])
  rw [hf, this]

theorem view_getElem? {T : Type} (fields : List (Field T)) (v : T) (j : Nat) (g : Field T)
    (h : fields[j]? = some g) : (view fields v)[j]? = some ⟨g.α, g.get v⟩ := by
  simp [view, List.getElem?_map, h]

theorem FramedFrom.at {T : Type} (all : List (Field T)) :
    ∀ (fs : List (Field T)) (i j : Nat) (f : Field T), FramedFrom all i fs → fs[j]? = some f →
      ∀ v a, view all (f.put v a) = (view all v).set (i + j) ⟨f.α, a⟩
  | [], _, _, _, _, h => by simp at h
  | f0 :: fs, i, 0, f, hfr, h => by
    simp only [List.getElem?_cons_zero, Option.some.injEq] at h
    subst h
    exact hfr.1
  | f0 :: fs, i, j + 1, f, hfr, h => by
    simp only [List.getElem?_cons_succ] at h
    have := FramedFrom.at all fs (i + 1) j f hfr.2 h
    intro v a
    rw [this v a]
    congr 1
    omega

theorem Lawful.get_put {T : Type} {fields : List (Field T)} (hl : Lawful fields)
    (f : Field T) (hf : f ∈ fields) (v : T) (a : f.α) : f.get (f.put v a) = a := by
  obtain ⟨i, hi⟩ := List.mem_iff_getElem?.mp hf
  have h1 := FramedFrom.at fields fields 0 i f hl.framed hi v a
  have h2 := view_getElem? fields (f.put v a) i f hi
  have hlt : i < (view fields v).length := by
    have := view_getElem? fields v i f hi
    exact (List.getElem?_eq_some_iff.mp this).1
  rw [h1, Nat.zero_add, List.getElem?_set_self hlt] at h2
  simp only [Option.some.injEq, Sigma.mk.inj_iff, heq_eq_eq, true_and] at h2
  exact h2.symm

theorem Lawful.frame {T : Type} {fields : List (Field T)} (hl : Lawful fields)
    (f : Field T) (hf : f ∈ fields) (g : Field T) (hg : g ∈ fields)
    (hne : foldName f.tag ≠ foldName g.tag) (v : T) (a : f.α) :
    g.get (f.put v a) = g.get v := by
  obtain ⟨i, hi⟩ := List.mem_iff_getElem?.mp hf
  obtain ⟨j, hj⟩ := List.mem_iff_getElem?.mp hg
  have hij : i ≠ j := by
    rintro rfl
    rw [hi] at hj
    cases hj
    exact hne rfl
  have h1 := FramedFrom.at fields fields 0 i f hl.framed hi v a
  have h2 := view_getElem? fields (f.put v a) j g hj
  have h3 := view_getElem? fields v j g hj
  rw [h1, Nat.zero_add, List.getElem?_set_ne hij, h3] at h2
  simp only [Option.some.injEq, Sigma.mk.inj_iff, heq_eq_eq, true_and] at h2
  exact h2.symm

theorem decodeMember_frame {T : Type} {fields : List (Field T)} (hl : Lawful fields)
    (g : Field T) (hg : g ∈ fields) (k : String) (j : Json) (v v1 : T)
    (hk : foldName k ≠ foldName g.tag) (h : decodeMember fields v k j = .ok v1) :
    g.get v1 = g.get v := by
  unfold decodeMember at h
  cases hf : lookupField fields k with
  | none =>
    rw [hf] at h
    cases h
    rfl
  | some f =>
    rw [hf] at h
    obtain ⟨hmem, htag⟩ := lookupField_mem fields k f hf
    obtain ⟨a, -, rfl⟩ := Except.map_eq_ok _ _ _ h
    exact hl.frame f hmem g hg (by rw [htag]; exact hk) v a

theorem decodeMember_set {T : Type} {fields : List (Field T)} (hl : Lawful fields)
    (g : Field T) (hg : g ∈ fields) (k : String) (z : Json) (v v1 : T)
    (hk : foldName k = foldName g.tag) (h : decodeMember fields v k z = .ok v1) :
    g.dec z (g.get v) = .ok (g.get v1) := by
  unfold decodeMember at h
  rw [lookupField_of_mem fields hl.nodup k g hg hk] at h
  obtain ⟨a, ha, rfl⟩ := Except.map_eq_ok _ _ _ h
  rw [hl.get_put g hg v a]
  exact ha

theorem decodeMembers_absent {T : Type} {fields : List (Field T)} (hl : Lawful fields)
    (g : Field T) (hg : g ∈ fields) :
    ∀ (kvs : List (String × Json)) (v v1 : T), Absent g.tag kvs →
      decodeMembers fields kvs v = .ok v1 → g.get v1 = g.get v
  | [], v, v1, _, h => by
    simp only [decodeMembers] at h
    cases h
    rfl
  | (k, j) :: rest, v, v1, habs, h => by
    simp only [decodeMembers] at h
    cases hm : decodeMember fields v k j with
    | error e => rw [hm] at h; cases h
    | ok v2 =>
      rw [hm] at h
      have hk : foldName k ≠ foldName g.tag := habs (k, j) (List.mem_cons_self _ _)
      have hrest : Absent g.tag rest := fun p hp => habs p (List.mem_cons_of_mem _ hp)
      rw [decodeMembers_absent hl g hg rest v2 v1 hrest h]
      exact decodeMember_frame hl g hg k j v v2 hk hm

theorem decodeMembers_append {T : Type} (fields : List (Field T)) :
    ∀ (pre post : List (String × Json)) (v v1 : T),
      decodeMembers fields (pre ++ post) v = .ok v1 →
      ∃ v2, decodeMembers fields pre v = .ok v2 ∧ decodeMembers fields post v2 = .ok v1
  | [], post, v, v1, h => ⟨v, rfl, h⟩
  | (k, j) :: pre, post, v, v1, h => by
    simp only [List.cons_append, decodeMembers] at h ⊢
    cases hm : decodeMember fields v k j with
    | error e => rw [hm] at h; cases h
    | ok v2 =>
      rw [hm] at h
      exact decodeMembers_append fields pre post v2 v1 h

theorem decodeMembers_setTo {T : Type} {fields : List (Field T)} (hl : Lawful fields)
    (g : Field T) (hg : g ∈ fields) (z : Json) (kvs : List (String × Json)) (v v1 : T)
    (hset : SetTo g.tag z kvs) (h : decodeMembers fields kvs v = .ok v1) :
    ∃ old, g.dec z old = .ok (g.get v1) := by
  obtain ⟨pre, k, post, rfl, hk, habs⟩ := hset
  obtain ⟨v2, -, h2⟩ := decodeMembers_append fields pre ((k, z) :: post) v v1 h
  simp only [decodeMembers] at h2
  cases hm : decodeMember fields v2 k z with
  | error e => rw [hm] at h2; cases h2
  | ok v3 =>
    rw [hm] at h2
    refine ⟨g.get v2, ?_⟩
    rw [decodeMembers_absent hl g hg post v3 v1 habs h2]
    exact decodeMember_set hl g hg k z v2 v3 hk hm

theorem distinguishes_of_nonNil {T : Type} {fields : List (Field T)} (hl : Lawful fields)
    (zero : T) (hnn : ∀ g ∈ fields, NonNil zero g) : Distinguishes fields zero := by
  intro g hg z hz kvsA kvsZ vA vZ hA hZ hdA hdZ heq
  have hzn : z ≠ Json.null := by
    simp only [zeroDocs, List.mem_cons, List.mem_singleton, List.not_mem_nil, or_false] at hz
    rcases hz with rfl | rfl | rfl <;> simp
  simp only [decodeStruct] at hdA hdZ
  have h1 := decodeMembers_absent hl g hg kvsA zero vA hA hdA
  obtain ⟨old, h2⟩ := decodeMembers_setTo hl g hg z kvsZ zero vZ hZ hdZ
  apply hnn g hg z hzn old (g.get vZ) h2
  rw [← heq, h1]

theorem decPtr_nonNil {α : Type} (zero : α) (dec : Decoder α) (z : Json) (hz : z ≠ Json.null)
    (old a : Option α) (h : decPtr zero dec z old = .ok a) : a ≠ none := by
  cases z with
  | null => exact absurd rfl hz
  | _ =>
    simp only [decPtr] at h
    obtain ⟨b, -, rfl⟩ := Except.map_eq_ok _ _ _ h
    simp

theorem decSlice_nonNil {α : Type} (zero : α) (dec : Decoder α) (z : Json) (hz : z ≠ Json.null)
    (old a : Slice α) (h : decSlice zero dec z old = .ok a) : a ≠ none := by
  cases z with
  | null => exact absurd rfl hz
  | arr xs =>
    simp only [decSlice] at h
    obtain ⟨b, -, rfl⟩ := Except.map_eq_ok _ _ _ h
    simp
  | _ => simp [decSlice] at h

theorem decAny_nonNil (z : Json) (hz : z ≠ Json.null) (old a : Option Json)
    (h : decAny z old = .ok a) : a ≠ none := by
  cases z with
  | null => exact absurd rfl hz
  | _ =>
    simp only [decAny] at h
    cases h
    simp

theorem conflates_of_put_zero {T : Type} (fields : List (Field T)) (zero : T)
    (h : ∀ g ∈ fields, decodeMember fields zero g.tag (Json.str "") = .ok zero) :
    Conflates fields zero := by
  intro g hg kvs v _ hd
  simp only [decodeStruct, decodeMembers] at hd ⊢
  rw [h g hg]
  exact hd

/-! ## The field tables describe the structs -/

theorem put_zero_ExternalUser : ∀ g ∈ ExternalUser.fields,
    decodeMember ExternalUser.fields ExternalUser.zero g.tag (Json.str "") =
      .ok ExternalUser.zero := by
  simp only [ExternalUser.fields, List.forall_mem_cons, List.not_mem_nil, false_implies,
    implies_true, and_true]
  repeat' apply And.intro
  all_goals rfl

theorem put_zero_Owner : ∀ g ∈ Owner.fields,
    decodeMember Owner.fields Owner.zero g.tag (Json.str "") =
      .ok Owner.zero := by
  simp only [Owner.fields, List.forall_mem_cons, List.not_mem_nil, false_implies,
    implies_true, and_true]
  repeat' apply And.intro
  all_goals rfl

theorem lawful_UptimeMonitor : Lawful (UptimeMonitor.fields) := by
  constructor
  · have h : (UptimeMonitor.fields).map (fun f => foldName f.tag) = List.map foldName [
      "id", "name", "url", "intervalSeconds", "timeoutMs", "status", "owner", "environment",
      "method", "headers", "body", "traceSampling"] :=
      rfl
    rw [h]
    decide
  · simp only [UptimeMonitor.fields, FramedFrom, and_true]
    repeat' apply And.intro
    all_goals (intro v a; rfl)

theorem nonNil_UptimeMonitor :
    ∀ g ∈ UptimeMonitor.fields, NonNil (UptimeMonitor.zero) g := by
  simp only [UptimeMonitor.fields, List.forall_mem_cons, List.not_mem_nil, false_implies,
    implies_true, and_true]
  repeat' apply And.intro
  all_goals
    intro z hz old a h
    first
      | exact decPtr_nonNil _ _ z hz old a h
      | exact decAny_nonNil z hz old a h

theorem lawful_OrganizationStatus : Lawful (OrganizationStatus.fields) := by
  constructor
  · have h : (OrganizationStatus.fields).map (fun f => foldName f.tag) = List.map foldName [
      "id", "name"] :=
      rfl
    rw [h]
    decide
  · simp only [OrganizationStatus.fields, FramedFrom, and_true]
    repeat' apply And.intro
    all_goals (intro v a; rfl)

theorem nonNil_OrganizationStatus :
    ∀ g ∈ OrganizationStatus.fields, NonNil (OrganizationStatus.zero) g := by
  simp only [OrganizationStatus.fields, List.forall_mem_cons, List.not_mem_nil, false_implies,
    implies_true, and_true]
  repeat' apply And.intro
  all_goals
    intro z hz old a h
    exact decPtr_nonNil _ _ z hz old a h

theorem lawful_OrganizationQuota : Lawful (OrganizationQuota.fields) := by
  constructor
  · have h : (OrganizationQuota.fields).map (fun f => foldName f.tag) = List.map foldName [
      "maxRate", "maxRateInterval", "accountLimit", "projectLimit"] :=
      rfl
    rw [h]
    decide
  · simp only [OrganizationQuota.fields, FramedFrom, and_true]
    repeat' apply And.intro
    all_goals (intro v a; rfl)

theorem nonNil_OrganizationQuota :
    ∀ g ∈ OrganizationQuota.fields, NonNil (OrganizationQuota.zero) g := by
  simp only [OrganizationQuota.fields, List.forall_mem_cons, List.not_mem_nil, false_implies,
    implies_true, and_true]
  repeat' apply And.intro
  all_goals
    intro z hz old a h
    exact decPtr_nonNil _ _ z hz old a h

theorem lawful_OrganizationAvatar : Lawful (OrganizationAvatar.fields) := by
  constructor
  · have h : (OrganizationAvatar.fields).map (fun f => foldName f.tag) = List.map foldName [
      "avatarType", "avatarUuid"] :=
      rfl
    rw [h]
    decide
  · simp only [OrganizationAvatar.fields, FramedFrom, and_true]
    repeat' apply And.intro
    all_goals (intro v a; rfl)

theorem nonNil_OrganizationAvatar :
    ∀ g ∈ OrganizationAvatar.fields, NonNil (OrganizationAvatar.zero) g := by
  simp only [OrganizationAvatar.fields, List.forall_mem_cons, List.not_mem_nil, false_implies,
    implies_true, and_true]
  repeat' apply And.intro
  all_goals
    intro z hz old a h
    exact decPtr_nonNil _ _ z hz old a h

theorem lawful_TrustedRelay (E : External) : Lawful (TrustedRelay.fields E) := by
  constructor
  · have h : (TrustedRelay.fields E).map (fun f => foldName f.tag) = List.map foldName [
      "id", "name", "publicKey", "description", "dateCreated", "lastSeen"] :=
      rfl
    rw [h]
    decide
  · simp only [TrustedRelay.fields, FramedFrom, and_true]
    repeat' apply And.intro
    all_goals (intro v a; rfl)

theorem nonNil_TrustedRelay (E : External) :
    ∀ g ∈ TrustedRelay.fields E, NonNil (TrustedRelay.zero E) g := by
  simp only [TrustedRelay.fields, List.forall_mem_cons, List.not_mem_nil, false_implies,
    implies_true, and_true]
  repeat' apply And.intro
  all_goals
    intro z hz old a h
    exact decPtr_nonNil _ _ z hz old a h

theorem lawful_Organization (E : External) : Lawful (Organization.fields E) := by
  constructor
  · have h : (Organization.fields E).map (fun f => foldName f.tag) = List.map foldName [
      "id", "slug", "status", "name", "dateCreated", "isEarlyAdopter", "require2FA",
      "requireEmailVerification", "avatar", "features", "quota", "isDefault", "defaultRole",
      "availableRoles", "orgRoleList", "teamRoleList", "openMembership", "allowSharedIssues",
      "enhancedPrivacy", "dataScrubber", "dataScrubberDefaults", "sensitiveFields",
      "safeFields", "storeCrashReports", "attachmentsRole", "debugFilesRole",
      "eventsMemberAdmin", "alertsMemberWrite", "scrubIPAddresses", "scrapeJavaScript",
      "allowJoinRequests", "relayPiiConfig", "trustedRelays", "access", "role",
      "pendingAccessRequests", "hideAiFeatures", "codecovAccess", "githubPRBot",
      "githubOpenPRBot", "githubNudgeInvite", "gitlabPRBot", "allowMemberProjectCreation"] :=
      rfl
    rw [h]
    decide
  · simp only [Organization.fields, FramedFrom, and_true]
    repeat' apply And.intro
    all_goals (intro v a; rfl)

theorem nonNil_Organization (E : External) :
    ∀ g ∈ Organization.fields E, NonNil (Organization.zero E) g := by
  simp only [Organization.fields, List.forall_mem_cons, List.not_mem_nil, false_implies,
    implies_true, and_true]
  repeat' apply And.intro
  all_goals
    intro z hz old a h
    first
      | exact decPtr_nonNil _ _ z hz old a h
      | exact decSlice_nonNil _ _ z hz old a h

/-! ## Lemmas on paths and on decoded lists -/

theorem requestPath_of_head {α : Type} (m : Traced α) (method path : String)
    (body : Option Json) (h : m.calls.head? = some (Call.NewRequest method path body)) :
    m.requestPath = some path := by
  unfold Traced.requestPath
  rw [h]
  rfl

theorem slash_split : ∀ (l1 l2 r1 r2 : List Char), ¬ '/' ∈ l1 → ¬ '/' ∈ l2 →
    l1 ++ '/' :: r1 = l2 ++ '/' :: r2 → l1 = l2 ∧ r1 = r2
  | [], [], _, _, _, _, h => by
    simp only [List.nil_append, List.cons.injEq, true_and] at h
    exact ⟨rfl, h⟩
  | [], c :: l2, _, _, _, h2, h => by
    simp only [List.nil_append, List.cons_append, List.cons.injEq] at h
    exact absurd (h.1 ▸ List.mem_cons_self _ _) h2
  | c :: l1, [], _, _, h1, _, h => by
    simp only [List.nil_append, List.cons_append, List.cons.injEq] at h
    exact absurd (h.1 ▸ List.mem_cons_self _ _) h1
  | c :: l1, d :: l2, r1, r2, h1, h2, h => by
    simp only [List.cons_append, List.cons.injEq] at h
    obtain ⟨hl, hr⟩ := slash_split l1 l2 r1 r2
      (fun hm => h1 (List.mem_cons_of_mem _ hm)) (fun hm => h2 (List.mem_cons_of_mem _ hm)) h.2
    exact ⟨by rw [h.1, hl], hr⟩

theorem uptimePath_injective (o p i o1 p1 i1 : String)
    (ho : slashFree o) (hp : slashFree p) (ho1 : slashFree o1) (hp1 : slashFree p1)
    (h : "0/projects/" ++ o ++ "/" ++ p ++ "/uptime/" ++ i ++ "/" =
         "0/projects/" ++ o1 ++ "/" ++ p1 ++ "/uptime/" ++ i1 ++ "/") :
    o = o1 ∧ p = p1 ∧ i = i1 := by
  have hd := congrArg String.data h
  simp only [String.data_append, List.append_assoc] at hd
  have h1 := List.append_cancel_left hd
  simp only [List.singleton_append, List.cons_append] at h1
  obtain ⟨e1, h2⟩ := slash_split _ _ _ _ ho ho1 h1
  obtain ⟨e2, h3⟩ := slash_split _ _ _ _ hp hp1 h2
  simp only [List.cons.injEq, true_and, List.nil_append] at h3
  have e3 : i.data = i1.data := List.append_cancel_right h3
  exact ⟨String.ext e1, String.ext e2, String.ext e3⟩

theorem decodeAll_order {α : Type} (zero : α) (dec : Decoder α) :
    ∀ (js : List Json) (as : List α), decodeAll zero dec js [] = .ok as →
      List.Forall₂ (fun j a => dec j zero = .ok a) js as
  | [], as, h => by
    simp only [decodeAll] at h
    cases h
    exact List.Forall₂.nil
  | j :: js, as, h => by
    simp only [decodeAll, List.headD_nil, List.tail_nil] at h
    cases hj : dec j zero with
    | error e => rw [hj] at h; cases h
    | ok a =>
      rw [hj] at h
      cases hr : decodeAll zero dec js [] with
      | error e => rw [hr] at h; cases h
      | ok rest =>
        rw [hr] at h
        cases h
        exact List.Forall₂.cons hj (decodeAll_order zero dec js rest hr)

/-! ## The claims -/

/-- C1: for every organization `org` and mapping identifier `id`, `ExternalUserService.Update`
builds its request with verb PUT and path `0/organizations/{org}/external-users/{id}/`, and
`ExternalUserService.Delete` builds its request for the same path with verb DELETE, a nil
body and, whenever it executes the request, a nil decode target; for `acme` and `42` the path
is `0/organizations/acme/external-users/42/`. -/
theorem externalUser_update_delete_requests (s : ExternalUserService) (ctx : Context)
    (org id : String) (params : Option UpdateExternalUserParams) :
    (ExternalUserService.Update s ctx org id params).calls.head? =
      some (Call.NewRequest "PUT" ("0/organizations/" ++ org ++ "/external-users/" ++ id ++ "/")
        (some (encPtr CreateExternalUserParams.marshal params))) ∧
    (ExternalUserService.Delete s ctx org id).calls.head? =
      some (Call.NewRequest "DELETE"
        ("0/organizations/" ++ org ++ "/external-users/" ++ id ++ "/") none) ∧
    (∀ ctx1 req nilTarget,
      Call.Do ctx1 req nilTarget ∈ (ExternalUserService.Delete s ctx org id).calls →
      nilTarget = true) ∧
    (ExternalUserService.Update s ctx "acme" "42" params).requestPath =
      some "0/organizations/acme/external-users/42/" ∧
    (ExternalUserService.Delete s ctx "acme" "42").requestPath =
      some "0/organizations/acme/external-users/42/" :=
  ⟨roundTrip_head _ _ _ _ _ _ _ _ (externalUser_update_eq s ctx org id params),
   roundTripNil_head _ _ _ _ _ _ (externalUser_delete_eq s ctx org id),
   roundTripNil_target _ _ _ _ _ _ (externalUser_delete_eq s ctx org id),
   requestPath_of_head _ _ _ _
     (roundTrip_head _ _ _ _ _ _ _ _ (externalUser_update_eq s ctx "acme" "42" params)),
   requestPath_of_head _ _ _ _
     (roundTripNil_head _ _ _ _ _ _ (externalUser_delete_eq s ctx "acme" "42"))⟩

/-- C2: `UptimeService.Create` for `acme`, `backend` and the parameters `apiHealthParams`
issues a POST to `0/projects/acme/backend/uptime/` whose body is exactly the name, the URL and
the interval of 60; when the request is built and `Do` answers with success, having decoded
the answer `mon1Answer` into the target, `Create` returns a nil error and a monitor whose ID
is `mon_1` and whose Status is `active`; and for every `org` and `project` the path is
`0/projects/{org}/{project}/uptime/`. -/
theorem uptime_create_scenario (s : UptimeService) (ctx : Context) :
    (UptimeService.Create s ctx "acme" "backend" (some apiHealthParams)).calls.head? =
      some (Call.NewRequest "POST" "0/projects/acme/backend/uptime/" (some apiHealthBody)) ∧
    (∀ req resp v,
      s.client.newRequest "POST" "0/projects/acme/backend/uptime/" (some apiHealthBody) =
        .ok req →
      s.client.doInto UptimeMonitor UptimeMonitor.unmarshal ctx req UptimeMonitor.zero =
        (resp, none, v) →
      UptimeMonitor.unmarshal mon1Answer UptimeMonitor.zero = .ok v →
      (UptimeService.Create s ctx "acme" "backend" (some apiHealthParams)).result =
        (some v, resp, none) ∧
      v.ID = some "mon_1" ∧ v.Status = some "active") ∧
    (∀ org project params,
      (UptimeService.Create s ctx org project params).requestPath =
        some ("0/projects/" ++ org ++ "/" ++ project ++ "/uptime/")) := by
  refine ⟨?_, ?_, ?_⟩
  · exact roundTrip_head _ _ _ _ _ _ _ _
      (uptime_create_eq s ctx "acme" "backend" (some apiHealthParams))
  · intro req resp v hreq hdo hdec
    refine ⟨?_, ?_, ?_⟩
    · unfold Traced.result
      rw [uptime_create_eq s ctx "acme" "backend" (some apiHealthParams)]
      exact congrArg Prod.fst (roundTrip_ok s.client UptimeMonitor.unmarshal ctx "POST"
        "0/projects/acme/backend/uptime/" (some apiHealthBody) UptimeMonitor.zero req resp v
        hreq hdo)
    · have h : UptimeMonitor.unmarshal mon1Answer UptimeMonitor.zero =
          .ok { UptimeMonitor.zero with
                ID := some "mon_1", Name := some "api-health", Status := some "active" } := rfl
      rw [h] at hdec
      cases hdec
      rfl
    · have h : UptimeMonitor.unmarshal mon1Answer UptimeMonitor.zero =
          .ok { UptimeMonitor.zero with
                ID := some "mon_1", Name := some "api-health", Status := some "active" } := rfl
      rw [h] at hdec
      cases hdec
      rfl
  · intro org project params
    exact requestPath_of_head _ _ _ _
      (roundTrip_head _ _ _ _ _ _ _ _ (uptime_create_eq s ctx org project params))

/-- Witness of C2: the mock service that answers 201 with `mon1Answer`. -/
theorem uptime_create_scenario_witness :
    (UptimeService.Create ⟨mockClient 201 mon1Answer⟩ ⟨false⟩ "acme" "backend"
        (some apiHealthParams)).result =
      (some { UptimeMonitor.zero with
              ID := some "mon_1", Name := some "api-health", Status := some "active" },
       some ⟨201, none⟩, none) ∧
    ({ UptimeMonitor.zero with
       ID := some "mon_1", Name := some "api-health", Status := some "active" } :
      UptimeMonitor).ID = some "mon_1" ∧
    ({ UptimeMonitor.zero with
       ID := some "mon_1", Name := some "api-health", Status := some "active" } :
      UptimeMonitor).Status = some "active" :=
  (uptime_create_scenario ⟨mockClient 201 mon1Answer⟩ ⟨false⟩).2.1
    ⟨"POST", "0/projects/acme/backend/uptime/", some apiHealthBody⟩ (some ⟨201, none⟩)
    { UptimeMonitor.zero with
      ID := some "mon_1", Name := some "api-health", Status := some "active" } rfl rfl rfl

/-- C3, counterexample: the body does not always carry exactly the fields the caller set.
With nothing set, the body of a `CreateExternalUserParams` carries five members with the
values 0 and the empty string, `id` among them; and the body of an
`UpdateOrganizationParams` in which the caller set `SensitiveFields` to the empty list
carries no member at all. -/
theorem body_is_not_the_fields_set :
    (CreateExternalUserParams.unset.ID = 0 ∧
      (CreateExternalUserParams.marshal CreateExternalUserParams.unset).members =
        [("user_id", Json.num 0), ("external_name", Json.str ""), ("provider", Json.str ""),
         ("integration_id", Json.num 0), ("id", Json.num 0)] ∧
      ("id", Json.num 0) ∈
        (CreateExternalUserParams.marshal CreateExternalUserParams.unset).members) ∧
    (sensitiveFieldsCleared.SensitiveFields = some [] ∧
      (UpdateOrganizationParams.marshal sensitiveFieldsCleared).members = []) :=
  ⟨⟨rfl, rfl, by
      rw [show (CreateExternalUserParams.marshal CreateExternalUserParams.unset).members =
        [("user_id", Json.num 0), ("external_name", Json.str ""), ("provider", Json.str ""),
         ("integration_id", Json.num 0), ("id", Json.num 0)] from rfl]
      simp⟩,
   ⟨rfl, rfl⟩⟩

/-- C3, amended: for a non-nil parameter object of `CreateOrganizationParams`,
`UpdateOrganizationParams` (and each `TrustedRelayUpdateParams` in it) or
`UptimeMonitorParams`, the body has, in declaration order, one member per pointer field the
caller set (with the value pointed to, a zero value included), one for `Headers` when it is
not nil, one per slice field that has at least one element, and no other member: a field left
unset is absent, and so is a slice set to the empty list. For a non-nil
`CreateExternalUserParams` (which is also `UpdateExternalUserParams`) the members `user_id`,
`external_name`, `provider`, `integration_id` and `id` are sent whatever their value, 0 and
the empty string included, and `external_id` exactly when it is not empty. Every Create and
Update method hands that serialisation to `NewRequest`, and the document `null` when the
parameter object is nil. -/
theorem params_bodies (E : External) (s : service) (ctx : Context) (org project id : String) :
    (∀ p : CreateOrganizationParams, (CreateOrganizationParams.marshal p).members =
      sent "name" (p.Name.map Json.str) ++
      sent "slug" (p.Slug.map Json.str) ++
      sent "agreeTerms" (p.AgreeTerms.map Json.bool)) ∧
    (∀ p : UpdateOrganizationParams, (UpdateOrganizationParams.marshal p).members =
      sent "name" (p.Name.map Json.str) ++
      sent "slug" (p.Slug.map Json.str) ++
      sent "isEarlyAdopter" (p.IsEarlyAdopter.map Json.bool) ++
      sent "hideAiFeatures" (p.HideAIFeatures.map Json.bool) ++
      sent "codecovAccess" (p.CodecovAccess.map Json.bool) ++
      sent "defaultRole" (p.DefaultRole.map Json.str) ++
      sent "openMembership" (p.OpenMembership.map Json.bool) ++
      sent "eventsMemberAdmin" (p.EventsMemberAdmin.map Json.bool) ++
      sent "alertsMemberWrite" (p.AlertsMemberWrite.map Json.bool) ++
      sent "attachmentsRole" (p.AttachmentsRole.map Json.str) ++
      sent "debugFilesRole" (p.DebugFilesRole.map Json.str) ++
      sent "avatarType" (p.AvatarType.map Json.str) ++
      sent "avatar" (p.Avatar.map Json.str) ++
      sent "require2FA" (p.Require2FA.map Json.bool) ++
      sent "allowSharedIssues" (p.AllowSharedIssues.map Json.bool) ++
      sent "enhancedPrivacy" (p.EnhancedPrivacy.map Json.bool) ++
      sent "scrapeJavaScript" (p.ScrapeJavaScript.map Json.bool) ++
      sent "storeCrashReports" (p.StoreCrashReports.map Json.num) ++
      sent "allowJoinRequests" (p.AllowJoinRequests.map Json.bool) ++
      sent "dataScrubber" (p.DataScrubber.map Json.bool) ++
      sent "dataScrubberDefaults" (p.DataScrubberDefaults.map Json.bool) ++
      sentSlice "sensitiveFields" Json.str p.SensitiveFields ++
      sentSlice "safeFields" Json.str p.SafeFields ++
      sent "scrubIPAddresses" (p.ScrubIPAddresses.map Json.bool) ++
      sent "relayPiiConfig" (p.RelayPiiConfig.map Json.str) ++
      sentSlice "trustedRelays" TrustedRelayUpdateParams.marshal p.TrustedRelays ++
      sent "githubPRBot" (p.GithubPRBot.map Json.bool) ++
      sent "githubOpenPRBot" (p.GithubOpenPRBot.map Json.bool) ++
      sent "githubNudgeInvite" (p.GithubNudgeInvite.map Json.bool) ++
      sent "gitlabPRBot" (p.GitlabPRBot.map Json.bool) ++
      sent "allowMemberProjectCreation" (p.AllowMemberProjectCreation.map Json.bool)) ∧
    (∀ p : TrustedRelayUpdateParams, (TrustedRelayUpdateParams.marshal p).members =
      sent "name" (p.Name.map Json.str) ++
      sent "publicKey" (p.PublicKey.map Json.str) ++
      sent "description" (p.Description.map Json.str)) ∧
    (∀ p : UptimeMonitorParams, (UptimeMonitorParams.marshal p).members =
      sent "name" (p.Name.map Json.str) ++
      sent "url" (p.URL.map Json.str) ++
      sent "interval_seconds" (p.IntervalSeconds.map Json.num) ++
      sent "timeout_ms" (p.TimeoutMs.map Json.num) ++
      sent "status" (p.Status.map Json.str) ++
      sent "owner" (p.Owner.map Json.str) ++
      sent "environment" (p.Environment.map Json.str) ++
      sent "method" (p.Method.map Json.str) ++
      sent "headers" p.Headers ++
      sent "body" (p.Body.map Json.str) ++
      sent "trace_sampling" (p.TraceSampling.map Json.bool)) ∧
    (∀ p : CreateExternalUserParams, (CreateExternalUserParams.marshal p).members =
      [("user_id", Json.num p.UserID), ("external_name", Json.str p.ExternalName),
       ("provider", Json.str p.ExternalProvider), ("integration_id", Json.num p.IntegrationID),
       ("id", Json.num p.ID)] ++
      (if p.ExternalID = "" then [] else [("external_id", Json.str p.ExternalID)])) ∧
    ((∀ p, (OrganizationsService.Create E s ctx (some p)).calls.head? =
        some (Call.NewRequest "POST" "0/organizations/"
          (some (CreateOrganizationParams.marshal p)))) ∧
      (OrganizationsService.Create E s ctx none).calls.head? =
        some (Call.NewRequest "POST" "0/organizations/" (some Json.null))) ∧
    ((∀ p, (OrganizationsService.Update E s ctx org (some p)).calls.head? =
        some (Call.NewRequest "PUT" ("0/organizations/" ++ org ++ "/")
          (some (UpdateOrganizationParams.marshal p)))) ∧
      (OrganizationsService.Update E s ctx org none).calls.head? =
        some (Call.NewRequest "PUT" ("0/organizations/" ++ org ++ "/") (some Json.null))) ∧
    ((∀ p, (ExternalUserService.Create s ctx org (some p)).calls.head? =
        some (Call.NewRequest "POST" ("0/organizations/" ++ org ++ "/external-users/")
          (some (CreateExternalUserParams.marshal p)))) ∧
      (ExternalUserService.Create s ctx org none).calls.head? =
        some (Call.NewRequest "POST" ("0/organizations/" ++ org ++ "/external-users/")
          (some Json.null))) ∧
    ((∀ p, (ExternalUserService.Update s ctx org id (some p)).calls.head? =
        some (Call.NewRequest "PUT"
          ("0/organizations/" ++ org ++ "/external-users/" ++ id ++ "/")
          (some (CreateExternalUserParams.marshal p)))) ∧
      (ExternalUserService.Update s ctx org id none).calls.head? =
        some (Call.NewRequest "PUT"
          ("0/organizations/" ++ org ++ "/external-users/" ++ id ++ "/") (some Json.null))) ∧
    ((∀ p, (UptimeService.Create s ctx org project (some p)).calls.head? =
        some (Call.NewRequest "POST" ("0/projects/" ++ org ++ "/" ++ project ++ "/uptime/")
          (some (UptimeMonitorParams.marshal p)))) ∧
      (UptimeService.Create s ctx org project none).calls.head? =
        some (Call.NewRequest "POST" ("0/projects/" ++ org ++ "/" ++ project ++ "/uptime/")
          (some Json.null))) ∧
    ((∀ p, (UptimeService.Update s ctx org project id (some p)).calls.head? =
        some (Call.NewRequest "PUT"
          ("0/projects/" ++ org ++ "/" ++ project ++ "/uptime/" ++ id ++ "/")
          (some (UptimeMonitorParams.marshal p)))) ∧
      (UptimeService.Update s ctx org project id none).calls.head? =
        some (Call.NewRequest "PUT"
          ("0/projects/" ++ org ++ "/" ++ project ++ "/uptime/" ++ id ++ "/")
          (some Json.null))) := by
  refine ⟨?_, ?_, ?_, ?_, ?_, ⟨?_, ?_⟩, ⟨?_, ?_⟩, ⟨?_, ?_⟩, ⟨?_, ?_⟩, ⟨?_, ?_⟩, ⟨?_, ?_⟩⟩
  · intro p
    simp only [CreateOrganizationParams.marshal, CreateOrganizationParams.fields, members_cons,
      members_nil, member_ptr, List.append_nil, List.append_assoc]
  · intro p
    simp only [UpdateOrganizationParams.marshal, UpdateOrganizationParams.fields, members_cons,
      members_nil, member_ptr, member_slice, List.append_nil, List.append_assoc]
  · intro p
    simp only [TrustedRelayUpdateParams.marshal, TrustedRelayUpdateParams.fields, members_cons,
      members_nil, member_ptr, List.append_nil, List.append_assoc]
  · intro p
    simp only [UptimeMonitorParams.marshal, UptimeMonitorParams.fields, members_cons,
      members_nil, member_ptr, member_any, List.append_nil, List.append_assoc]
  · intro p
    by_cases h : p.ExternalID = "" <;>
      simp [CreateExternalUserParams.marshal, marshalStruct, CreateExternalUserParams.fields,
        OutField.omitted, OutField.member, Json.members, h]
  · intro p
    exact roundTrip_head _ _ _ _ _ _ _ _ (organizations_create_eq E s ctx (some p))
  · exact roundTrip_head _ _ _ _ _ _ _ _ (organizations_create_eq E s ctx none)
  · intro p
    exact roundTrip_head _ _ _ _ _ _ _ _ (organizations_update_eq E s ctx org (some p))
  · exact roundTrip_head _ _ _ _ _ _ _ _ (organizations_update_eq E s ctx org none)
  · intro p
    exact roundTrip_head _ _ _ _ _ _ _ _ (externalUser_create_eq s ctx org (some p))
  · exact roundTrip_head _ _ _ _ _ _ _ _ (externalUser_create_eq s ctx org none)
  · intro p
    exact roundTrip_head _ _ _ _ _ _ _ _ (externalUser_update_eq s ctx org id (some p))
  · exact roundTrip_head _ _ _ _ _ _ _ _ (externalUser_update_eq s ctx org id none)
  · intro p
    exact roundTrip_head _ _ _ _ _ _ _ _ (uptime_create_eq s ctx org project (some p))
  · exact roundTrip_head _ _ _ _ _ _ _ _ (uptime_create_eq s ctx org project none)
  · intro p
    exact roundTrip_head _ _ _ _ _ _ _ _ (uptime_update_eq s ctx org project id (some p))
  · exact roundTrip_head _ _ _ _ _ _ _ _ (uptime_update_eq s ctx org project id none)

/-- C4: for every Get, Create, Update and List method, when the request is built and `Do`
returns a non-nil error, the method returns a nil value, the response `Do` returned and
exactly that error. -/
theorem do_error_is_propagated (E : External) (s : service) (ctx : Context)
    (slug org project id : String) (lp : Option ListCursorParams)
    (cop : Option CreateOrganizationParams) (uop : Option UpdateOrganizationParams)
    (cep : Option CreateExternalUserParams) (ump : Option UptimeMonitorParams) :
    PropagatesDoError s.client ctx "GET" ("0/organizations/" ++ slug ++ "/") none
      (Organization.unmarshal E) (Organization.zero E)
      (OrganizationsService.Get E s ctx slug) ∧
    PropagatesDoError s.client ctx "GET"
      ("0/projects/" ++ org ++ "/" ++ project ++ "/uptime/" ++ id ++ "/") none
      UptimeMonitor.unmarshal UptimeMonitor.zero (UptimeService.Get s ctx org project id) ∧
    PropagatesDoError s.client ctx "POST" "0/organizations/"
      (some (encPtr CreateOrganizationParams.marshal cop))
      (Organization.unmarshal E) (Organization.zero E)
      (OrganizationsService.Create E s ctx cop) ∧
    PropagatesDoError s.client ctx "POST" ("0/organizations/" ++ org ++ "/external-users/")
      (some (encPtr CreateExternalUserParams.marshal cep))
      ExternalUser.unmarshal ExternalUser.zero (ExternalUserService.Create s ctx org cep) ∧
    PropagatesDoError s.client ctx "POST"
      ("0/projects/" ++ org ++ "/" ++ project ++ "/uptime/")
      (some (encPtr UptimeMonitorParams.marshal ump))
      UptimeMonitor.unmarshal UptimeMonitor.zero
      (UptimeService.Create s ctx org project ump) ∧
    PropagatesDoError s.client ctx "PUT" ("0/organizations/" ++ slug ++ "/")
      (some (encPtr UpdateOrganizationParams.marshal uop))
      (Organization.unmarshal E) (Organization.zero E)
      (OrganizationsService.Update E s ctx slug uop) ∧
    PropagatesDoError s.client ctx "PUT"
      ("0/organizations/" ++ org ++ "/external-users/" ++ id ++ "/")
      (some (encPtr CreateExternalUserParams.marshal cep))
      ExternalUser.unmarshal ExternalUser.zero (ExternalUserService.Update s ctx org id cep) ∧
    PropagatesDoError s.client ctx "PUT"
      ("0/projects/" ++ org ++ "/" ++ project ++ "/uptime/" ++ id ++ "/")
      (some (encPtr UptimeMonitorParams.marshal ump))
      UptimeMonitor.unmarshal UptimeMonitor.zero
      (UptimeService.Update s ctx org project id ump) ∧
    (∀ u, E.addQuery "0/organizations/" lp = .ok u →
      PropagatesDoError s.client ctx "GET" u none
        (Organization.unmarshalList E) (some []) (OrganizationsService.List E s ctx lp)) := by
  refine ⟨?_, ?_, ?_, ?_, ?_, ?_, ?_, ?_, ?_⟩
  · exact roundTrip_propagates _ _ _ _ _ _ _ _ (organizations_get_eq E s ctx slug)
  · exact roundTrip_propagates _ _ _ _ _ _ _ _ (uptime_get_eq s ctx org project id)
  · exact roundTrip_propagates _ _ _ _ _ _ _ _ (organizations_create_eq E s ctx cop)
  · exact roundTrip_propagates _ _ _ _ _ _ _ _ (externalUser_create_eq s ctx org cep)
  · exact roundTrip_propagates _ _ _ _ _ _ _ _ (uptime_create_eq s ctx org project ump)
  · exact roundTrip_propagates _ _ _ _ _ _ _ _ (organizations_update_eq E s ctx slug uop)
  · exact roundTrip_propagates _ _ _ _ _ _ _ _ (externalUser_update_eq s ctx org id cep)
  · exact roundTrip_propagates _ _ _ _ _ _ _ _
      (uptime_update_eq s ctx org project id ump)
  · intro u hu
    apply roundTripSlice_propagates
    rw [organizations_list_eq, hu]

/-- Witness of C4: a service that answers 404 to a Get of an organization that does not
exist. -/
theorem do_error_is_propagated_witness :
    (OrganizationsService.Get External.unit ⟨mockClient 404 Json.null⟩ ⟨false⟩ "nope").result =
      (none, some ⟨404, none⟩, some (Error.service 404 "error")) :=
  (do_error_is_propagated External.unit ⟨mockClient 404 Json.null⟩ ⟨false⟩ "nope" "" "" ""
      none none none none none).1
    ⟨"GET", "0/organizations/nope/", none⟩ (some ⟨404, none⟩) (Error.service 404 "error")
    (Organization.zero External.unit) rfl rfl

/-- C5, counterexample: when the request cannot be built, `ExternalUserService.Create`
returns a non-nil error and a nil response. -/
theorem response_nil_when_request_not_built :
    (ExternalUserService.Create ⟨brokenClient⟩ ⟨false⟩ "acme" none).result =
      (none, none, some (Error.construction "invalid path")) ∧
    (ExternalUserService.Create ⟨brokenClient⟩ ⟨false⟩ "acme" none).result.2.2 ≠ none ∧
    (ExternalUserService.Create ⟨brokenClient⟩ ⟨false⟩ "acme" none).result.2.1 = none :=
  ⟨rfl, fun h => Option.noConfusion h, rfl⟩

/-- C5, amended: every resource method returns, next to the typed result and the error, the
response `Do` returned whenever the request was built and `Do` was called, whatever the
error; when the request is not built (`NewRequest` or, in `List`, `addQuery` fails) the
returned response is nil. -/
theorem response_is_the_one_of_do (E : External) (s : service) (ctx : Context)
    (slug org project id : String) (lp : Option ListCursorParams)
    (cop : Option CreateOrganizationParams) (uop : Option UpdateOrganizationParams)
    (cep : Option CreateExternalUserParams) (ump : Option UptimeMonitorParams) :
    ReturnsDoResponse s.client ctx "GET" ("0/organizations/" ++ slug ++ "/") none
      (Organization.unmarshal E) (Organization.zero E)
      (OrganizationsService.Get E s ctx slug) ∧
    ReturnsDoResponse s.client ctx "POST" "0/organizations/"
      (some (encPtr CreateOrganizationParams.marshal cop))
      (Organization.unmarshal E) (Organization.zero E)
      (OrganizationsService.Create E s ctx cop) ∧
    ReturnsDoResponse s.client ctx "PUT" ("0/organizations/" ++ slug ++ "/")
      (some (encPtr UpdateOrganizationParams.marshal uop))
      (Organization.unmarshal E) (Organization.zero E)
      (OrganizationsService.Update E s ctx slug uop) ∧
    ReturnsDoResponseNil s.client ctx "DELETE" ("0/organizations/" ++ slug ++ "/") none
      (OrganizationsService.Delete s ctx slug) ∧
    (∀ u, E.addQuery "0/organizations/" lp = .ok u →
      ReturnsDoResponse s.client ctx "GET" u none
        (Organization.unmarshalList E) (some []) (OrganizationsService.List E s ctx lp)) ∧
    (∀ err, E.addQuery "0/organizations/" lp = .error err →
      (OrganizationsService.List E s ctx lp).result = (none, none, some err)) ∧
    ReturnsDoResponse s.client ctx "POST" ("0/organizations/" ++ org ++ "/external-users/")
      (some (encPtr CreateExternalUserParams.marshal cep))
      ExternalUser.unmarshal ExternalUser.zero (ExternalUserService.Create s ctx org cep) ∧
    ReturnsDoResponse s.client ctx "PUT"
      ("0/organizations/" ++ org ++ "/external-users/" ++ id ++ "/")
      (some (encPtr CreateExternalUserParams.marshal cep))
      ExternalUser.unmarshal ExternalUser.zero (ExternalUserService.Update s ctx org id cep) ∧
    ReturnsDoResponseNil s.client ctx "DELETE"
      ("0/organizations/" ++ org ++ "/external-users/" ++ id ++ "/") none
      (ExternalUserService.Delete s ctx org id) ∧
    ReturnsDoResponse s.client ctx "GET"
      ("0/projects/" ++ org ++ "/" ++ project ++ "/uptime/" ++ id ++ "/") none
      UptimeMonitor.unmarshal UptimeMonitor.zero (UptimeService.Get s ctx org project id) ∧
    ReturnsDoResponse s.client ctx "POST"
      ("0/projects/" ++ org ++ "/" ++ project ++ "/uptime/")
      (some (encPtr UptimeMonitorParams.marshal ump))
      UptimeMonitor.unmarshal UptimeMonitor.zero
      (UptimeService.Create s ctx org project ump) ∧
    ReturnsDoResponse s.client ctx "PUT"
      ("0/projects/" ++ org ++ "/" ++ project ++ "/uptime/" ++ id ++ "/")
      (some (encPtr UptimeMonitorParams.marshal ump))
      UptimeMonitor.unmarshal UptimeMonitor.zero
      (UptimeService.Update s ctx org project id ump) ∧
    ReturnsDoResponseNil s.client ctx "DELETE"
      ("0/projects/" ++ org ++ "/" ++ project ++ "/uptime/" ++ id ++ "/") none
      (UptimeService.Delete s ctx org project id) := by
  refine ⟨?_, ?_, ?_, ?_, ?_, ?_, ?_, ?_, ?_, ?_, ?_, ?_, ?_⟩
  · exact roundTrip_response _ _ _ _ _ _ _ _ (organizations_get_eq E s ctx slug)
  · exact roundTrip_response _ _ _ _ _ _ _ _ (organizations_create_eq E s ctx cop)
  · exact roundTrip_response _ _ _ _ _ _ _ _ (organizations_update_eq E s ctx slug uop)
  · exact roundTripNil_response _ _ _ _ _ _ (organizations_delete_eq s ctx slug)
  · intro u hu
    apply roundTripSlice_response
    rw [organizations_list_eq, hu]
  · intro err herr
    unfold Traced.result
    rw [organizations_list_eq, herr]
  · exact roundTrip_response _ _ _ _ _ _ _ _ (externalUser_create_eq s ctx org cep)
  · exact roundTrip_response _ _ _ _ _ _ _ _ (externalUser_update_eq s ctx org id cep)
  · exact roundTripNil_response _ _ _ _ _ _ (externalUser_delete_eq s ctx org id)
  · exact roundTrip_response _ _ _ _ _ _ _ _ (uptime_get_eq s ctx org project id)
  · exact roundTrip_response _ _ _ _ _ _ _ _ (uptime_create_eq s ctx org project ump)
  · exact roundTrip_response _ _ _ _ _ _ _ _ (uptime_update_eq s ctx org project id ump)
  · exact roundTripNil_response _ _ _ _ _ _ (uptime_delete_eq s ctx org project id)

/-- Witness of C5 amended: a service that answers 500 to a Delete; the response comes
back with the error. -/
theorem response_is_the_one_of_do_witness :
    (UptimeService.Delete ⟨mockClient 500 Json.null⟩ ⟨false⟩ "acme" "backend" "mon_1").result =
      (some ⟨500, none⟩, some (Error.service 500 "error")) :=
  (response_is_the_one_of_do External.unit ⟨mockClient 500 Json.null⟩ ⟨false⟩ "" "acme"
      "backend" "mon_1" none none none none none).2.2.2.2.2.2.2.2.2.2.2.2.1
    ⟨"DELETE", "0/projects/acme/backend/uptime/mon_1/", none⟩ rfl

/-- C6: when `OrganizationsService.List` builds and executes its request successfully, it
returns the sequence exactly as `Do` left it in the target, elements in the decoded order,
with a nil error; in particular when nothing was decoded into the target, or an empty array
was, the sequence is empty and not nil; and decoding an array keeps the document order. -/
theorem list_returns_decoded_sequence (E : External) (s : OrganizationsService)
    (ctx : Context) (lp : Option ListCursorParams) (u : String) (req : Request)
    (resp : Option Response) (orgs : Slice (Option (Organization E)))
    (hu : E.addQuery "0/organizations/" lp = .ok u)
    (hreq : s.client.newRequest "GET" u none = .ok req)
    (hdo : s.client.doInto (Slice (Option (Organization E))) (Organization.unmarshalList E)
      ctx req (some []) = (resp, none, orgs)) :
    (OrganizationsService.List E s ctx lp).result = (orgs, resp, none) ∧
    (orgs = some [] ∨
      Organization.unmarshalList E (Json.arr []) (some []) = .ok orgs →
      (OrganizationsService.List E s ctx lp).result = (some [], resp, none)) ∧
    (∀ js, Organization.unmarshalList E (Json.arr js) (some []) = .ok orgs →
      ∃ l, orgs = some l ∧
        List.Forall₂ (fun j o =>
          decPtr (Organization.zero E) (Organization.unmarshal E) j none = .ok o) js l) := by
  have hres : (OrganizationsService.List E s ctx lp).result = (orgs, resp, none) := by
    unfold Traced.result
    rw [organizations_list_eq, hu]
    exact congrArg Prod.fst (roundTripSlice_ok s.client ctx "GET" u none
      (Organization.unmarshalList E) (some []) req resp orgs hreq hdo)
  refine ⟨hres, ?_, ?_⟩
  · rintro (h | h)
    · rw [hres, h]
    · have h1 : Organization.unmarshalList E (Json.arr []) (some []) = .ok (some []) := rfl
      rw [h1] at h
      cases h
      exact hres
  · intro js h
    simp only [Organization.unmarshalList, decSlice] at h
    obtain ⟨l, hl, rfl⟩ := Except.map_eq_ok _ _ _ h
    exact ⟨l, rfl, decodeAll_order _ _ js l hl⟩

/-- Witness of C6: a service that answers 200 with an empty array. -/
theorem list_returns_decoded_sequence_witness :
    (OrganizationsService.List External.unit ⟨mockClient 200 (Json.arr [])⟩ ⟨false⟩
        none).result = (some [], some ⟨200, none⟩, none) :=
  (list_returns_decoded_sequence External.unit ⟨mockClient 200 (Json.arr [])⟩ ⟨false⟩ none
    "0/organizations/" ⟨"GET", "0/organizations/", none⟩ (some ⟨200, none⟩) (some [])
    rfl rfl rfl).1

/-- C7: when request construction fails, every resource method returns that same error at
once, with a nil value and a nil response, and `Do` is not invoked: `NewRequest` is the only
transport call made, and none at all is made when `addQuery` fails in `List`. -/
theorem construction_error_stops_the_call (E : External) (s : service) (ctx : Context)
    (slug org project id : String) (lp : Option ListCursorParams)
    (cop : Option CreateOrganizationParams) (uop : Option UpdateOrganizationParams)
    (cep : Option CreateExternalUserParams) (ump : Option UptimeMonitorParams) :
    (∀ err, E.addQuery "0/organizations/" lp = .error err →
      (OrganizationsService.List E s ctx lp).result = (none, none, some err) ∧
      (OrganizationsService.List E s ctx lp).calls = []) ∧
    (∀ u, E.addQuery "0/organizations/" lp = .ok u →
      FailsFast s.client "GET" u none (OrganizationsService.List E s ctx lp)) ∧
    FailsFast s.client "GET" ("0/organizations/" ++ slug ++ "/") none
      (OrganizationsService.Get E s ctx slug) ∧
    FailsFast s.client "POST" "0/organizations/"
      (some (encPtr CreateOrganizationParams.marshal cop))
      (OrganizationsService.Create E s ctx cop) ∧
    FailsFast s.client "PUT" ("0/organizations/" ++ slug ++ "/")
      (some (encPtr UpdateOrganizationParams.marshal uop))
      (OrganizationsService.Update E s ctx slug uop) ∧
    FailsFastNil s.client "DELETE" ("0/organizations/" ++ slug ++ "/") none
      (OrganizationsService.Delete s ctx slug) ∧
    FailsFast s.client "POST" ("0/organizations/" ++ org ++ "/external-users/")
      (some (encPtr CreateExternalUserParams.marshal cep))
      (ExternalUserService.Create s ctx org cep) ∧
    FailsFast s.client "PUT" ("0/organizations/" ++ org ++ "/external-users/" ++ id ++ "/")
      (some (encPtr CreateExternalUserParams.marshal cep))
      (ExternalUserService.Update s ctx org id cep) ∧
    FailsFastNil s.client "DELETE"
      ("0/organizations/" ++ org ++ "/external-users/" ++ id ++ "/") none
      (ExternalUserService.Delete s ctx org id) ∧
    FailsFast s.client "GET"
      ("0/projects/" ++ org ++ "/" ++ project ++ "/uptime/" ++ id ++ "/") none
      (UptimeService.Get s ctx org project id) ∧
    FailsFast s.client "POST" ("0/projects/" ++ org ++ "/" ++ project ++ "/uptime/")
      (some (encPtr UptimeMonitorParams.marshal ump))
      (UptimeService.Create s ctx org project ump) ∧
    FailsFast s.client "PUT"
      ("0/projects/" ++ org ++ "/" ++ project ++ "/uptime/" ++ id ++ "/")
      (some (encPtr UptimeMonitorParams.marshal ump))
      (UptimeService.Update s ctx org project id ump) ∧
    FailsFastNil s.client "DELETE"
      ("0/projects/" ++ org ++ "/" ++ project ++ "/uptime/" ++ id ++ "/") none
      (UptimeService.Delete s ctx org project id) := by
  refine ⟨?_, ?_, ?_, ?_, ?_, ?_, ?_, ?_, ?_, ?_, ?_, ?_, ?_⟩
  · intro err herr
    unfold Traced.result Traced.calls
    rw [organizations_list_eq, herr]
    exact ⟨rfl, rfl⟩
  · intro u hu
    apply roundTripSlice_failsFast s.client ctx "GET" u none (Organization.unmarshalList E)
      (some [])
    rw [organizations_list_eq, hu]
  · exact roundTrip_failsFast _ _ _ _ _ _ _ _ (organizations_get_eq E s ctx slug)
  · exact roundTrip_failsFast _ _ _ _ _ _ _ _ (organizations_create_eq E s ctx cop)
  · exact roundTrip_failsFast _ _ _ _ _ _ _ _ (organizations_update_eq E s ctx slug uop)
  · exact roundTripNil_failsFast _ _ _ _ _ _ (organizations_delete_eq s ctx slug)
  · exact roundTrip_failsFast _ _ _ _ _ _ _ _ (externalUser_create_eq s ctx org cep)
  · exact roundTrip_failsFast _ _ _ _ _ _ _ _ (externalUser_update_eq s ctx org id cep)
  · exact roundTripNil_failsFast _ _ _ _ _ _ (externalUser_delete_eq s ctx org id)
  · exact roundTrip_failsFast _ _ _ _ _ _ _ _ (uptime_get_eq s ctx org project id)
  · exact roundTrip_failsFast _ _ _ _ _ _ _ _ (uptime_create_eq s ctx org project ump)
  · exact roundTrip_failsFast _ _ _ _ _ _ _ _ (uptime_update_eq s ctx org project id ump)
  · exact roundTripNil_failsFast _ _ _ _ _ _ (uptime_delete_eq s ctx org project id)

/-- Witness of C7: `addQuery` fails in `List`, and `NewRequest` fails in an Update. -/
theorem construction_error_stops_the_call_witness :
    ((OrganizationsService.List External.badQuery ⟨brokenClient⟩ ⟨false⟩ none).result =
        (none, none, some (Error.construction "bad query")) ∧
      (OrganizationsService.List External.badQuery ⟨brokenClient⟩ ⟨false⟩ none).calls = []) ∧
    ((ExternalUserService.Update ⟨brokenClient⟩ ⟨false⟩ "acme" "42" none).result =
        (none, none, some (Error.construction "invalid path")) ∧
      (ExternalUserService.Update ⟨brokenClient⟩ ⟨false⟩ "acme" "42" none).calls =
        [Call.NewRequest "PUT" ("0/organizations/" ++ "acme" ++ "/external-users/" ++ "42" ++ "/")
          (some (encPtr CreateExternalUserParams.marshal none))]) :=
  ⟨(construction_error_stops_the_call External.badQuery ⟨brokenClient⟩ ⟨false⟩ "" "acme" ""
      "42" none none none none none).1 (Error.construction "bad query") rfl,
   (construction_error_stops_the_call External.badQuery ⟨brokenClient⟩ ⟨false⟩ "" "acme" ""
      "42" none none none none none).2.2.2.2.2.2.2.1 (Error.construction "invalid path") rfl⟩

/-- C8, counterexample: for `ExternalUser`, a response without `id` and a response with
`id` set to the empty string decode to the same value. -/
theorem externalUser_absent_equals_empty :
    ExternalUser.unmarshal (Json.obj []) ExternalUser.zero = .ok ExternalUser.zero ∧
    ExternalUser.unmarshal (Json.obj [("id", Json.str "")]) ExternalUser.zero =
      .ok ExternalUser.zero ∧
    ¬ Distinguishes ExternalUser.fields ExternalUser.zero := by
  refine ⟨rfl, rfl, ?_⟩
  intro h
  refine h ⟨"id", String, fun v => v.ID, fun v x => { v with ID := x }, decString⟩
    (List.mem_cons_self _ _) (Json.str "") (List.mem_cons_self _ _) [] [("id", Json.str "")]
    ExternalUser.zero ExternalUser.zero ?_ ?_ rfl rfl rfl
  · intro p hp
    cases hp
  · exact ⟨[], "id", [], rfl, rfl, fun p hp => by cases hp⟩

/-- C8, amended: for `Organization`, `OrganizationStatus`, `OrganizationQuota`,
`OrganizationAvatar`, `TrustedRelay` and `UptimeMonitor`, whose attributes are all pointers,
slices or interface values, a response in which an attribute is absent and a response in
which it is explicitly set to a zero value (empty string, 0, false) never decode to equal
values; for `ExternalUser` and `Owner`, whose attributes are plain strings, adding an
attribute with the empty string to a response in which it is absent leaves the decoded value
the same. -/
theorem absent_versus_zero (E : External) :
    Distinguishes (Organization.fields E) (Organization.zero E) ∧
    Distinguishes OrganizationStatus.fields OrganizationStatus.zero ∧
    Distinguishes OrganizationQuota.fields OrganizationQuota.zero ∧
    Distinguishes OrganizationAvatar.fields OrganizationAvatar.zero ∧
    Distinguishes (TrustedRelay.fields E) (TrustedRelay.zero E) ∧
    Distinguishes UptimeMonitor.fields UptimeMonitor.zero ∧
    Conflates ExternalUser.fields ExternalUser.zero ∧
    Conflates Owner.fields Owner.zero :=
  ⟨distinguishes_of_nonNil (lawful_Organization E) _ (nonNil_Organization E),
   distinguishes_of_nonNil lawful_OrganizationStatus _ nonNil_OrganizationStatus,
   distinguishes_of_nonNil lawful_OrganizationQuota _ nonNil_OrganizationQuota,
   distinguishes_of_nonNil lawful_OrganizationAvatar _ nonNil_OrganizationAvatar,
   distinguishes_of_nonNil (lawful_TrustedRelay E) _ (nonNil_TrustedRelay E),
   distinguishes_of_nonNil lawful_UptimeMonitor _ nonNil_UptimeMonitor,
   conflates_of_put_zero _ _ put_zero_ExternalUser,
   conflates_of_put_zero _ _ put_zero_Owner⟩

/-- Witness of C8 amended: an uptime monitor without `name` and one whose `name` is the
empty string. -/
theorem absent_versus_zero_witness :
    UptimeMonitor.unmarshal (Json.obj [("id", Json.str "mon_1")]) UptimeMonitor.zero =
      .ok { UptimeMonitor.zero with ID := some "mon_1" } ∧
    UptimeMonitor.unmarshal (Json.obj [("id", Json.str "mon_1"), ("name", Json.str "")])
      UptimeMonitor.zero = .ok { UptimeMonitor.zero with ID := some "mon_1", Name := some "" } ∧
    ({ UptimeMonitor.zero with ID := some "mon_1" } : UptimeMonitor) ≠
      { UptimeMonitor.zero with ID := some "mon_1", Name := some "" } :=
  ⟨rfl, rfl,
   (absent_versus_zero External.unit).2.2.2.2.2.1
     ⟨"name", _, fun v => v.Name, fun v x => { v with Name := x }, decPtr "" decString⟩
     (List.mem_cons_of_mem _ (List.mem_cons_self _ _)) (Json.str "") (List.mem_cons_self _ _)
     [("id", Json.str "mon_1")] [("id", Json.str "mon_1"), ("name", Json.str "")]
     { UptimeMonitor.zero with ID := some "mon_1" }
     { UptimeMonitor.zero with ID := some "mon_1", Name := some "" }
     (by intro p hp
         simp only [List.mem_singleton] at hp
         subst hp
         decide)
     ⟨[("id", Json.str "mon_1")], "name", [], rfl, rfl, fun p hp => by cases hp⟩ rfl rfl⟩

/-- C9: no resource method retries: whatever the transport returns, one call of a method
invokes `NewRequest` at most once and `Do` at most once; when request construction succeeds it
invokes `NewRequest` once and then `Do` exactly once, on the request built; when `NewRequest`
fails it invokes nothing else, and when `addQuery` fails in `List` it invokes nothing. -/
theorem no_retry (E : External) (s : service) (ctx : Context)
    (slug org project id : String) (lp : Option ListCursorParams)
    (cop : Option CreateOrganizationParams) (uop : Option UpdateOrganizationParams)
    (cep : Option CreateExternalUserParams) (ump : Option UptimeMonitorParams) :
    ((OrganizationsService.List E s ctx lp).calls.countP Call.isNewRequest ≤ 1 ∧
      (OrganizationsService.List E s ctx lp).calls.countP Call.isDo ≤ 1) ∧
    (∀ u, E.addQuery "0/organizations/" lp = .ok u →
      NoRetry s.client ctx "GET" u none false (OrganizationsService.List E s ctx lp)) ∧
    (∀ err, E.addQuery "0/organizations/" lp = .error err →
      (OrganizationsService.List E s ctx lp).calls = []) ∧
    NoRetry s.client ctx "GET" ("0/organizations/" ++ slug ++ "/") none false
      (OrganizationsService.Get E s ctx slug) ∧
    NoRetry s.client ctx "POST" "0/organizations/"
      (some (encPtr CreateOrganizationParams.marshal cop)) false
      (OrganizationsService.Create E s ctx cop) ∧
    NoRetry s.client ctx "PUT" ("0/organizations/" ++ slug ++ "/")
      (some (encPtr UpdateOrganizationParams.marshal uop)) false
      (OrganizationsService.Update E s ctx slug uop) ∧
    NoRetry s.client ctx "DELETE" ("0/organizations/" ++ slug ++ "/") none true
      (OrganizationsService.Delete s ctx slug) ∧
    NoRetry s.client ctx "POST" ("0/organizations/" ++ org ++ "/external-users/")
      (some (encPtr CreateExternalUserParams.marshal cep)) false
      (ExternalUserService.Create s ctx org cep) ∧
    NoRetry s.client ctx "PUT" ("0/organizations/" ++ org ++ "/external-users/" ++ id ++ "/")
      (some (encPtr CreateExternalUserParams.marshal cep)) false
      (ExternalUserService.Update s ctx org id cep) ∧
    NoRetry s.client ctx "DELETE"
      ("0/organizations/" ++ org ++ "/external-users/" ++ id ++ "/") none true
      (ExternalUserService.Delete s ctx org id) ∧
    NoRetry s.client ctx "GET"
      ("0/projects/" ++ org ++ "/" ++ project ++ "/uptime/" ++ id ++ "/") none false
      (UptimeService.Get s ctx org project id) ∧
    NoRetry s.client ctx "POST" ("0/projects/" ++ org ++ "/" ++ project ++ "/uptime/")
      (some (encPtr UptimeMonitorParams.marshal ump)) false
      (UptimeService.Create s ctx org project ump) ∧
    NoRetry s.client ctx "PUT"
      ("0/projects/" ++ org ++ "/" ++ project ++ "/uptime/" ++ id ++ "/")
      (some (encPtr UptimeMonitorParams.marshal ump)) false
      (UptimeService.Update s ctx org project id ump) ∧
    NoRetry s.client ctx "DELETE"
      ("0/projects/" ++ org ++ "/" ++ project ++ "/uptime/" ++ id ++ "/") none true
      (UptimeService.Delete s ctx org project id) := by
  refine ⟨?_, ?_, ?_, ?_, ?_, ?_, ?_, ?_, ?_, ?_, ?_, ?_, ?_, ?_⟩
  · cases hu : E.addQuery "0/organizations/" lp with
    | error err =>
      have h : (OrganizationsService.List E s ctx lp).calls = [] := by
        unfold Traced.calls
        rw [organizations_list_eq, hu]
      rw [h]
      exact ⟨Nat.zero_le _, Nat.zero_le _⟩
    | ok u =>
      have h := roundTripSlice_noRetry s.client ctx "GET" u none
        (Organization.unmarshalList E) (some []) (OrganizationsService.List E s ctx lp)
        (by rw [organizations_list_eq, hu])
      exact ⟨h.1, h.2.1⟩
  · intro u hu
    apply roundTripSlice_noRetry s.client ctx "GET" u none (Organization.unmarshalList E)
      (some [])
    rw [organizations_list_eq, hu]
  · intro err herr
    unfold Traced.calls
    rw [organizations_list_eq, herr]
  · exact roundTrip_noRetry _ _ _ _ _ _ _ _ (organizations_get_eq E s ctx slug)
  · exact roundTrip_noRetry _ _ _ _ _ _ _ _ (organizations_create_eq E s ctx cop)
  · exact roundTrip_noRetry _ _ _ _ _ _ _ _ (organizations_update_eq E s ctx slug uop)
  · exact roundTripNil_noRetry _ _ _ _ _ _ (organizations_delete_eq s ctx slug)
  · exact roundTrip_noRetry _ _ _ _ _ _ _ _ (externalUser_create_eq s ctx org cep)
  · exact roundTrip_noRetry _ _ _ _ _ _ _ _ (externalUser_update_eq s ctx org id cep)
  · exact roundTripNil_noRetry _ _ _ _ _ _ (externalUser_delete_eq s ctx org id)
  · exact roundTrip_noRetry _ _ _ _ _ _ _ _ (uptime_get_eq s ctx org project id)
  · exact roundTrip_noRetry _ _ _ _ _ _ _ _ (uptime_create_eq s ctx org project ump)
  · exact roundTrip_noRetry _ _ _ _ _ _ _ _ (uptime_update_eq s ctx org project id ump)
  · exact roundTripNil_noRetry _ _ _ _ _ _ (uptime_delete_eq s ctx org project id)

/-- Witness of C9: a service that answers 503 to an Update is asked once. -/
theorem no_retry_witness :
    (mockClient 503 Json.null).newRequest "PUT"
        ("0/projects/" ++ "acme" ++ "/" ++ "backend" ++ "/uptime/" ++ "mon_1" ++ "/")
        (some (encPtr UptimeMonitorParams.marshal none)) =
      .ok ⟨"PUT", "0/projects/acme/backend/uptime/mon_1/", some Json.null⟩ ∧
    ((UptimeService.Update ⟨mockClient 503 Json.null⟩ ⟨false⟩ "acme" "backend" "mon_1"
        none).calls =
      [Call.NewRequest "PUT"
         ("0/projects/" ++ "acme" ++ "/" ++ "backend" ++ "/uptime/" ++ "mon_1" ++ "/")
         (some (encPtr UptimeMonitorParams.marshal none)),
       Call.Do ⟨false⟩ ⟨"PUT", "0/projects/acme/backend/uptime/mon_1/", some Json.null⟩
         false] ∧
     (UptimeService.Update ⟨mockClient 503 Json.null⟩ ⟨false⟩ "acme" "backend" "mon_1"
        none).calls.countP Call.isNewRequest = 1 ∧
     (UptimeService.Update ⟨mockClient 503 Json.null⟩ ⟨false⟩ "acme" "backend" "mon_1"
        none).calls.countP Call.isDo = 1) :=
  ⟨rfl,
   (no_retry External.unit ⟨mockClient 503 Json.null⟩ ⟨false⟩ "" "acme" "backend" "mon_1"
      none none none none none).2.2.2.2.2.2.2.2.2.2.2.2.1.2.2.1
    ⟨"PUT", "0/projects/acme/backend/uptime/mon_1/", some Json.null⟩ rfl⟩

/-- C10: the paths of uptime monitors are injective on identifiers without `/`: if `Get`
(equally `Update`, `Delete`) builds the same path for two triples whose organization and
project contain no `/` (the monitor identifier, which comes last, may be anything), the
triples are equal; and they are not injective otherwise: organization `a/b` with project
`c`, and organization `a` with project `b/c`, build the same path. -/
theorem uptime_paths_injective_without_slash (s : UptimeService) (ctx : Context)
    (o p i o1 p1 i1 : String) (params params1 : Option UptimeMonitorParams)
    (ho : slashFree o) (hp : slashFree p) (ho1 : slashFree o1) (hp1 : slashFree p1) :
    (UptimeService.Get s ctx o p i).requestPath =
      some ("0/projects/" ++ o ++ "/" ++ p ++ "/uptime/" ++ i ++ "/") ∧
    ((UptimeService.Get s ctx o p i).requestPath =
       (UptimeService.Get s ctx o1 p1 i1).requestPath → (o, p, i) = (o1, p1, i1)) ∧
    ((UptimeService.Update s ctx o p i params).requestPath =
       (UptimeService.Update s ctx o1 p1 i1 params1).requestPath → (o, p, i) = (o1, p1, i1)) ∧
    ((UptimeService.Delete s ctx o p i).requestPath =
       (UptimeService.Delete s ctx o1 p1 i1).requestPath → (o, p, i) = (o1, p1, i1)) ∧
    (("a/b", "c", i) ≠ ("a", "b/c", i) ∧
     (UptimeService.Get s ctx "a/b" "c" i).requestPath =
       (UptimeService.Get s ctx "a" "b/c" i).requestPath ∧
     (UptimeService.Update s ctx "a/b" "c" i params).requestPath =
       (UptimeService.Update s ctx "a" "b/c" i params).requestPath ∧
     (UptimeService.Delete s ctx "a/b" "c" i).requestPath =
       (UptimeService.Delete s ctx "a" "b/c" i).requestPath) := by
  have hget : ∀ a b c, (UptimeService.Get s ctx a b c).requestPath =
      some ("0/projects/" ++ a ++ "/" ++ b ++ "/uptime/" ++ c ++ "/") := fun a b c =>
    requestPath_of_head _ _ _ _
      (roundTrip_head _ _ _ _ _ _ _ _ (uptime_get_eq s ctx a b c))
  have hupd : ∀ a b c q, (UptimeService.Update s ctx a b c q).requestPath =
      some ("0/projects/" ++ a ++ "/" ++ b ++ "/uptime/" ++ c ++ "/") := fun a b c q =>
    requestPath_of_head _ _ _ _
      (roundTrip_head _ _ _ _ _ _ _ _ (uptime_update_eq s ctx a b c q))
  have hdel : ∀ a b c, (UptimeService.Delete s ctx a b c).requestPath =
      some ("0/projects/" ++ a ++ "/" ++ b ++ "/uptime/" ++ c ++ "/") := fun a b c =>
    requestPath_of_head _ _ _ _
      (roundTripNil_head _ _ _ _ _ _ (uptime_delete_eq s ctx a b c))
  have hinj : "0/projects/" ++ o ++ "/" ++ p ++ "/uptime/" ++ i ++ "/" =
      "0/projects/" ++ o1 ++ "/" ++ p1 ++ "/uptime/" ++ i1 ++ "/" →
      (o, p, i) = (o1, p1, i1) := by
    intro h
    obtain ⟨e1, e2, e3⟩ := uptimePath_injective o p i o1 p1 i1 ho hp ho1 hp1 h
    rw [e1, e2, e3]
  have hcol : "0/projects/" ++ "a/b" ++ "/" ++ "c" ++ "/uptime/" ++ i ++ "/" =
      "0/projects/" ++ "a" ++ "/" ++ "b/c" ++ "/uptime/" ++ i ++ "/" := by
    have h : "0/projects/" ++ "a/b" ++ "/" ++ "c" ++ "/uptime/" =
        "0/projects/" ++ "a" ++ "/" ++ "b/c" ++ "/uptime/" := by decide
    rw [h]
  refine ⟨hget o p i, ?_, ?_, ?_, ?_, ?_, ?_, ?_⟩
  · intro h
    rw [hget, hget] at h
    exact hinj (Option.some.inj h)
  · intro h
    rw [hupd, hupd] at h
    exact hinj (Option.some.inj h)
  · intro h
    rw [hdel, hdel] at h
    exact hinj (Option.some.inj h)
  · intro h
    have h1 : "a/b" = "a" := congrArg Prod.fst h
    exact absurd h1 (by decide)
  · rw [hget, hget, hcol]
  · rw [hupd, hupd, hcol]
  · rw [hdel, hdel, hcol]

/-- Witness of C10: `acme`, `backend`, `mon_1` against themselves. -/
theorem uptime_paths_injective_without_slash_witness :
    (slashFree "acme" ∧ slashFree "backend" ∧ slashFree "mon_1") ∧
    (UptimeService.Get ⟨brokenClient⟩ ⟨false⟩ "acme" "backend" "mon_1").requestPath =
      some ("0/projects/" ++ "acme" ++ "/" ++ "backend" ++ "/uptime/" ++ "mon_1" ++ "/") :=
  ⟨⟨by decide, by decide, by decide⟩,
   (uptime_paths_injective_without_slash ⟨brokenClient⟩ ⟨false⟩ "acme" "backend" "mon_1"
     "acme" "backend" "mon_1" none none (by decide) (by decide) (by decide) (by decide)).1⟩


end Sentry
